import Mathlib

/-!
Shallow embedding of `source/blender/editors/space_info/info_stats.c`
(scene statistics aggregator) and proofs about it.

Counters are modelled as `Int` (the source uses `uint64_t` accumulators fed
by non-negative `int` counts; all values involved stay far below 2^64, so
plain integer arithmetic coincides with the machine arithmetic).
Raw counts read from external containers (mesh counters, display lists,
particle counts, ...) are modelled as `Nat`, since they are element counts.
External collaborators that are not part of this translation unit
(`poly_to_tri_count`, `count_particles`, `count_particles_mod`,
`BKE_gpencil_stats_update`, `count_duplilist`, memory statistics) are
modelled from the specification, each marked in its doc comment.
-/

/-- The statistics accumulator, translated from `struct SceneStats`. -/
structure SceneStats where
  totvert : Int := 0
  totvertsel : Int := 0
  totedge : Int := 0
  totedgesel : Int := 0
  totface : Int := 0
  totfacesel : Int := 0
  totbone : Int := 0
  totbonesel : Int := 0
  totobj : Int := 0
  totobjsel : Int := 0
  totlamp : Int := 0
  totlampsel : Int := 0
  tottri : Int := 0
  totgplayer : Int := 0
  totgpframe : Int := 0
  totgpstroke : Int := 0
  totgppoint : Int := 0
  infostr : String := ""
deriving Repr, DecidableEq

/-- The zero-initialised accumulator, `SceneStats stats = {0}`. -/
def emptyStats : SceneStats := {}

/-- Counters of an evaluated mesh, the fields of `Mesh` read by
`stats_mesheval` (`totvert`, `totedge`, `totpoly`, `totloop`). -/
structure MeshEval where
  totvert : Nat
  totedge : Nat
  totpoly : Nat
  totloop : Nat
deriving Repr, DecidableEq

/-- Modelled from the spec: the external `poly_to_tri_count(poly_count,
corner_count)` derives the triangle count from loop/polygon totals — a
polygon with k corners triangulates to k − 2 triangles, so the total is the
corner total minus twice the polygon total. -/
def poly_to_tri_count (totpoly totloop : Int) : Int :=
  totloop - 2 * totpoly

/-- Translation of `stats_mesheval`.  Returns the C function's boolean
result together with the updated accumulator. -/
def stats_mesheval (me_eval : Option MeshEval) (sel : Bool) (totob : Int)
    (stats : SceneStats) : Bool × SceneStats :=
  match me_eval with
  | some me =>
    let totvert : Int := me.totvert
    let totedge : Int := me.totedge
    let totface : Int := me.totpoly
    let totloop : Int := me.totloop
    let stats :=
      { stats with
        totvert := stats.totvert + totvert * totob
        totedge := stats.totedge + totedge * totob
        totface := stats.totface + totface * totob
        tottri := stats.tottri + poly_to_tri_count totface totloop * totob }
    let stats :=
      if sel then
        { stats with
          totvertsel := stats.totvertsel + totvert
          totfacesel := stats.totfacesel + totface }
      else stats
    (true, stats)
  | none => (false, stats)

/-- Vertex/face/triangle counts of a display list, the result of the
external `BKE_displist_count` on `ob->runtime.curve_cache->disp`.
`none` models an absent curve cache or an empty display list. -/
structure DispListCount where
  totv : Nat
  totf : Nat
  tottri : Nat
deriving Repr, DecidableEq

/-- Object kind tag (`ob->type`). -/
inductive ObjectType where
  | OB_MESH
  | OB_LAMP
  | OB_CURVE
  | OB_SURF
  | OB_FONT
  | OB_MBALL
  | OB_GPENCIL
  | OB_ARMATURE
  | OB_LATTICE
  | OB_EMPTY
deriving Repr, DecidableEq

/-- Grease-pencil data block (`bGPdata`): the cached statistics fields
(`totlayer`, `totframe`, `totstroke`, `totpoint`) plus the values that a
recomputation from the underlying layer/frame/stroke content would
produce (`liveLayers`, ...), summarising the content the external
recomputation walks. -/
structure BGPdata where
  liveLayers : Nat
  liveFrames : Nat
  liveStrokes : Nat
  livePoints : Nat
  totlayer : Nat
  totframe : Nat
  totstroke : Nat
  totpoint : Nat
deriving Repr, DecidableEq

/-- Modelled from the spec: the external `BKE_gpencil_stats_update`
(`recomputeAndFetchStats`) recomputes the grease-pencil data block's
internal layer/frame/stroke/point totals from its content and stores them
in the cached fields. -/
def BKE_gpencil_stats_update (g : BGPdata) : BGPdata :=
  { g with
    totlayer := g.liveLayers
    totframe := g.liveFrames
    totstroke := g.liveStrokes
    totpoint := g.livePoints }

/-- The part of a scene `Object` read (and, for grease pencil, written) by
`stats_object`: its kind tag, evaluated-mesh handle, display-list cache
and grease-pencil data. -/
structure ObData where
  type : ObjectType
  mesh_eval : Option MeshEval := none
  curve_cache : Option DispListCount := none
  gpd : BGPdata := ⟨0, 0, 0, 0, 0, 0, 0, 0⟩
deriving Repr, DecidableEq

/-- The display-list fallback shared by the `OB_SURF`/`OB_CURVE`/`OB_FONT`
fallthrough and the `OB_MBALL` case of `stats_object`. -/
def stats_object_displist (ob : ObData) (sel : Bool) (totob : Int)
    (stats : SceneStats) : SceneStats :=
  let counts : Int × Int × Int :=
    match ob.curve_cache with
    | some d => ((d.totv : Int), (d.totf : Int), (d.tottri : Int))
    | none => (0, 0, 0)
  let totv := counts.1 * totob
  let totf := counts.2.1 * totob
  let tottri := counts.2.2 * totob
  let stats :=
    { stats with
      totvert := stats.totvert + totv
      totface := stats.totface + totf
      tottri := stats.tottri + tottri }
  if sel then
    { stats with
      totvertsel := stats.totvertsel + totv
      totfacesel := stats.totfacesel + totf }
  else stats

/-- Translation of `stats_object`.  Besides the updated accumulator it
returns the (possibly updated) object data: the grease-pencil case calls
`BKE_gpencil_stats_update` on the object's data block in place. -/
def stats_object (ob : ObData) (sel : Bool) (totob : Int)
    (stats : SceneStats) : SceneStats × ObData :=
  match ob.type with
  | .OB_MESH =>
    ((stats_mesheval ob.mesh_eval sel totob stats).2, ob)
  | .OB_LAMP =>
    let stats := { stats with totlamp := stats.totlamp + totob }
    let stats :=
      if sel then { stats with totlampsel := stats.totlampsel + totob }
      else stats
    (stats, ob)
  | .OB_SURF | .OB_CURVE | .OB_FONT =>
    let r := stats_mesheval ob.mesh_eval sel totob stats
    if r.1 then (r.2, ob)
    else (stats_object_displist ob sel totob stats, ob)
  | .OB_MBALL =>
    (stats_object_displist ob sel totob stats, ob)
  | .OB_GPENCIL =>
    if sel then
      let gpd := BKE_gpencil_stats_update ob.gpd
      let stats :=
        { stats with
          totgplayer := stats.totgplayer + (gpd.totlayer : Int)
          totgpframe := stats.totgpframe + (gpd.totframe : Int)
          totgpstroke := stats.totgpstroke + (gpd.totstroke : Int)
          totgppoint := stats.totgppoint + (gpd.totpoint : Int) }
      (stats, { ob with gpd := gpd })
    else (stats, ob)
  | _ => (stats, ob)

/-- Counters of an edit mesh's BMesh (`em->bm`), maintained by the
external edit-mesh container. -/
structure BMeshCounters where
  totvert : Nat
  totvertsel : Nat
  totedge : Nat
  totedgesel : Nat
  totface : Nat
  totfacesel : Nat
deriving Repr, DecidableEq

/-- An edit mesh (`BMEditMesh`): its BMesh counters and its own
triangulation count `em->tottri`. -/
structure BMEditMesh where
  bm : BMeshCounters
  tottri : Nat
deriving Repr, DecidableEq

/-- The flags read from an edit bone's parent (`ebo->parent->flag &
BONE_TIPSEL`); the snapshot taken by the loop body. -/
structure EditBoneParent where
  tipsel : Bool
deriving Repr, DecidableEq

/-- An edit bone (`EditBone`): its `BONE_CONNECTED` / `BONE_TIPSEL` /
`BONE_ROOTSEL` / `BONE_SELECTED` flag bits and its parent pointer
(`none` models a NULL parent). -/
structure EditBone where
  connected : Bool
  tipsel : Bool
  rootsel : Bool
  selected : Bool
  parent : Option EditBoneParent
deriving Repr, DecidableEq

/-- The body of the armature loop in `stats_object_edit`, in source
statement order (`totbone++`; conditional `totvert--`; the two selection
increments; `totbonesel`; the shared-root correction; `totvert += 2`). -/
def armStep (stats : SceneStats) (ebo : EditBone) : SceneStats :=
  let stats := { stats with totbone := stats.totbone + 1 }
  let stats :=
    if ebo.connected && ebo.parent.isSome then
      { stats with totvert := stats.totvert - 1 }
    else stats
  let stats :=
    if ebo.tipsel then { stats with totvertsel := stats.totvertsel + 1 }
    else stats
  let stats :=
    if ebo.rootsel then { stats with totvertsel := stats.totvertsel + 1 }
    else stats
  let stats :=
    if ebo.selected then { stats with totbonesel := stats.totbonesel + 1 }
    else stats
  let stats :=
    if ebo.connected && ebo.rootsel &&
        (match ebo.parent with
         | some p => p.tipsel
         | none => false) then
      { stats with totvertsel := stats.totvertsel - 1 }
    else stats
  { stats with totvert := stats.totvert + 2 }

/-- A Bezier control point (`BezTriple`): the `SELECT` bits of its two
handles and its control point (`f1`, `f2`, `f3`). -/
structure BezTriple where
  f1 : Bool
  f2 : Bool
  f3 : Bool
deriving Repr, DecidableEq

/-- A plain control point (`BPoint`): its `f1 & SELECT` bit. -/
structure BPoint where
  f1 : Bool
deriving Repr, DecidableEq

/-- One spline (`Nurb`): a Bezier spline carries its `bezt` array
(`pntsu` entries), a non-Bezier spline its `bp` array
(`pntsu * pntsv` entries). -/
inductive Nurb where
  | bezier (bezt : List BezTriple)
  | poly (bp : List BPoint)
deriving Repr, DecidableEq

/-- The body of the Bezier inner loop of `stats_object_edit`. -/
def beztStep (stats : SceneStats) (bezt : BezTriple) : SceneStats :=
  let stats := { stats with totvert := stats.totvert + 3 }
  let stats :=
    if bezt.f1 then { stats with totvertsel := stats.totvertsel + 1 }
    else stats
  let stats :=
    if bezt.f2 then { stats with totvertsel := stats.totvertsel + 1 }
    else stats
  if bezt.f3 then { stats with totvertsel := stats.totvertsel + 1 }
  else stats

/-- The body of the non-Bezier inner loop of `stats_object_edit` (also
used for lattice points, whose loop body is identical). -/
def bpStep (stats : SceneStats) (bp : BPoint) : SceneStats :=
  let stats := { stats with totvert := stats.totvert + 1 }
  if bp.f1 then { stats with totvertsel := stats.totvertsel + 1 }
  else stats

/-- The per-spline step of the curve branch of `stats_object_edit`. -/
def nurbStep (stats : SceneStats) (nu : Nurb) : SceneStats :=
  match nu with
  | .bezier bezt => bezt.foldl beztStep stats
  | .poly bp => bp.foldl bpStep stats

/-- An edit metaball element (`MetaElem`): its `flag & SELECT` bit. -/
structure MetaElem where
  selected : Bool
deriving Repr, DecidableEq

/-- The body of the metaball loop of `stats_object_edit`. -/
def mlStep (stats : SceneStats) (ml : MetaElem) : SceneStats :=
  let stats := { stats with totvert := stats.totvert + 1 }
  if ml.selected then { stats with totvertsel := stats.totvertsel + 1 }
  else stats

/-- The bone whose flags a pose channel reads (`pchan->bone`): its
`BONE_SELECTED` bit and its layer bitmask. -/
structure PoseBone where
  selected : Bool
  layer : Nat
deriving Repr, DecidableEq

/-- A pose channel (`bPoseChannel`); `bone = none` models a NULL
`pchan->bone`. -/
structure PoseChannel where
  bone : Option PoseBone
deriving Repr, DecidableEq

/-- A pose (`bPose`): its channel list `chanbase`. -/
structure Pose where
  chanbase : List PoseChannel
deriving Repr, DecidableEq

/-- The sculpt session's dynamic-topology BMesh (`ob->sculpt->bm`):
its vertex and face counts. -/
structure SculptBM where
  totvert : Nat
  totface : Nat
deriving Repr, DecidableEq

/-- Object mode bits (`ob->mode`): the `OB_MODE_EDIT`, `OB_MODE_POSE`
and `OB_MODE_SCULPT` bits; `OB_MODE_OBJECT` is all bits clear. -/
structure ObjectMode where
  edit : Bool := false
  pose : Bool := false
  sculpt : Bool := false
deriving Repr, DecidableEq

/-- `OB_MODE_OBJECT`: no mode bit set. -/
def OB_MODE_OBJECT : ObjectMode := {}

/-- Duplication flags (`ob->transflag`): `OB_DUPLIPARTS`,
`OB_DUPLIVERTS`, `OB_DUPLIFACES`, `OB_DUPLIFRAMES`,
`OB_DUPLICOLLECTION`. -/
structure TransFlag where
  dupliparts : Bool := false
  dupliverts : Bool := false
  duplifaces : Bool := false
  dupliframes : Bool := false
  duplicollection : Bool := false
deriving Repr, DecidableEq

/-- The fields read through `ob->parent` by `stats_dupli_object`: the
parent's `OB_DUPLIVERTS` / `OB_DUPLIFACES` bits and the external
`count_duplilist(ob->parent)` result for it. -/
structure ParentInfo where
  dupliverts : Bool := false
  duplifaces : Bool := false
  duplilist_count : Nat := 0
deriving Repr, DecidableEq

/-- Particle draw mode (`part->draw_as`): `PART_DRAW_OB`,
`PART_DRAW_GR`, or any other value. -/
inductive PartDraw where
  | PART_DRAW_OB
  | PART_DRAW_GR
  | PART_DRAW_OTHER
deriving Repr, DecidableEq

mutual

/-- A collection (`Collection`): its member-object list `gobject` and its
child-collection list `children`. -/
inductive Collection where
  | mk (gobject : List ObData) (children : CollectionList)

/-- A linked list of child collections (`collection->children`). -/
inductive CollectionList where
  | nil
  | cons (c : Collection) (rest : CollectionList)

end

/-- Member objects of a collection (`collection->gobject`). -/
def Collection.gobject : Collection → List ObData
  | .mk g _ => g

/-- Child collections of a collection (`collection->children`). -/
def Collection.children : Collection → CollectionList
  | .mk _ c => c

/-- A particle system together with the settings fields read from
`psys->part` (`draw_as`, `dup_ob`, `dup_group`); `tot_particles` carries
the external `count_particles(psys)` live-particle total. -/
structure ParticleSystem where
  tot_particles : Nat
  draw_as : PartDraw
  dup_ob : Option ObData := none
  dup_group : Option Collection := none

/-- Modelled from the spec: the external `count_particles(psys)` returns
the particle system's total live particle count. -/
def count_particles (psys : ParticleSystem) : Nat :=
  psys.tot_particles

/-- Modelled from the spec: the external `count_particles_mod(psys,
totgroup, cur)` gives member `cur`'s round-robin share of the system's
total instance count across `totgroup` members — each member gets
`total / totgroup` rounded down, with the remainder given one-by-one
starting from the first member. -/
def count_particles_mod (psys : ParticleSystem) (totgroup cur : Nat) : Nat :=
  psys.tot_particles / totgroup +
    (if cur < psys.tot_particles % totgroup then 1 else 0)

mutual

/-- Translation of `stats_dupli_object_group_count`: member count of the
collection itself plus, recursively, of every child collection. -/
def stats_dupli_object_group_count : Collection → Nat
  | .mk gobject children => gobject.length + group_count_children children

/-- The child-collection loop of `stats_dupli_object_group_count`. -/
def group_count_children : CollectionList → Nat
  | .nil => 0
  | .cons c rest => stats_dupli_object_group_count c + group_count_children rest

end

/-- The member loop of `stats_dupli_object_group_doit`: for each member,
its `count_particles_mod` share is applied via `stats_object` with
selection off, and the running member index `cur` advances. -/
def group_doit_members (members : List ObData) (stats : SceneStats)
    (psys : ParticleSystem) (totgroup cur : Nat) : SceneStats × Nat :=
  match members with
  | [] => (stats, cur)
  | cob :: rest =>
    let tot := count_particles_mod psys totgroup cur
    let stats := (stats_object cob false (tot : Int) stats).1
    group_doit_members rest stats psys totgroup (cur + 1)

mutual

/-- Translation of `stats_dupli_object_group_doit`: process the
collection's own members, then recurse into the child collections,
threading the member index `cur`. -/
def stats_dupli_object_group_doit (c : Collection) (stats : SceneStats)
    (psys : ParticleSystem) (totgroup cur : Nat) : SceneStats × Nat :=
  match c with
  | .mk gobject children =>
    let r := group_doit_members gobject stats psys totgroup cur
    group_doit_children children r.1 psys totgroup r.2

/-- The child-collection loop of `stats_dupli_object_group_doit`. -/
def group_doit_children (cs : CollectionList) (stats : SceneStats)
    (psys : ParticleSystem) (totgroup cur : Nat) : SceneStats × Nat :=
  match cs with
  | .nil => (stats, cur)
  | .cons c rest =>
    let r := stats_dupli_object_group_doit c stats psys totgroup cur
    group_doit_children rest r.1 psys totgroup r.2

end

/-- A scene object (`Object`): its countable data, name, mode and
selection state, edit-mode data views, pose and sculpt sessions,
duplication state, particle systems and the external
`count_duplilist(ob)` result for it. -/
structure Object where
  data : ObData
  name : String := ""
  mode : ObjectMode := {}
  base_selected : Bool := false
  has_shape_key : Bool := false
  editmesh : Option BMEditMesh := none
  edbo : List EditBone := []
  editnurbs : List Nurb := []
  editelems : List MetaElem := []
  editlatt : List BPoint := []
  pose : Option Pose := none
  sculpt_bm : Option SculptBM := none
  transflag : TransFlag := {}
  parent : Option ParentInfo := none
  dup_group : Option Collection := none
  particlesystem : List ParticleSystem := []
  duplilist_count : Nat := 0
  arm_layer : Nat := 0

/-- Translation of `stats_object_edit`: dispatch over the edit object's
kind to the per-kind edit-data loop. -/
def stats_object_edit (obedit : Object) (stats : SceneStats) : SceneStats :=
  if obedit.data.type = .OB_MESH then
    match obedit.editmesh with
    | some em =>
      { stats with
        totvert := stats.totvert + (em.bm.totvert : Int)
        totvertsel := stats.totvertsel + (em.bm.totvertsel : Int)
        totedge := stats.totedge + (em.bm.totedge : Int)
        totedgesel := stats.totedgesel + (em.bm.totedgesel : Int)
        totface := stats.totface + (em.bm.totface : Int)
        totfacesel := stats.totfacesel + (em.bm.totfacesel : Int)
        tottri := stats.tottri + (em.tottri : Int) }
    | none => stats
  else if obedit.data.type = .OB_ARMATURE then
    obedit.edbo.foldl armStep stats
  else if obedit.data.type = .OB_CURVE ∨ obedit.data.type = .OB_SURF then
    obedit.editnurbs.foldl nurbStep stats
  else if obedit.data.type = .OB_MBALL then
    obedit.editelems.foldl mlStep stats
  else if obedit.data.type = .OB_LATTICE then
    obedit.editlatt.foldl bpStep stats
  else stats

/-- The body of the pose-channel loop of `stats_object_pose`. -/
def poseStep (arm_layer : Nat) (stats : SceneStats) (pchan : PoseChannel) :
    SceneStats :=
  let stats := { stats with totbone := stats.totbone + 1 }
  match pchan.bone with
  | some b =>
    if b.selected then
      if b.layer &&& arm_layer ≠ 0 then
        { stats with totbonesel := stats.totbonesel + 1 }
      else stats
    else stats
  | none => stats

/-- Translation of `stats_object_pose`; the object's `arm_layer` field
carries the armature data block's visible-layer mask
(`((bArmature *)ob->data)->layer`). -/
def stats_object_pose (ob : Object) (stats : SceneStats) : SceneStats :=
  match ob.pose with
  | some pose => pose.chanbase.foldl (poseStep ob.arm_layer) stats
  | none => stats

/-- Translation of `stats_object_sculpt_dynamic_topology`: a direct
snapshot assignment (not accumulation) of the dynamic-topology BMesh's
vertex and face counts; `bm` is `ob->sculpt->bm`. -/
def stats_object_sculpt_dynamic_topology (bm : SculptBM)
    (stats : SceneStats) : SceneStats :=
  { stats with
    totvert := (bm.totvert : Int)
    tottri := (bm.totface : Int) }

/-- The per-particle-system body of the `OB_DUPLIPARTS` loop of
`stats_dupli_object`. -/
def psysContribution (stats : SceneStats) (psys : ParticleSystem) :
    SceneStats :=
  match psys.draw_as, psys.dup_ob, psys.dup_group with
  | .PART_DRAW_OB, some target, _ =>
    let tot := count_particles psys
    (stats_object target false (tot : Int) stats).1
  | .PART_DRAW_GR, _, some collection =>
    let totgroup := stats_dupli_object_group_count collection
    (stats_dupli_object_group_doit collection stats psys totgroup 0).1
  | _, _, _ => stats

/-- Translation of `stats_dupli_object`: select exactly one duplication
policy for the object, compute its instance multiplier, and count it.
The updated object (its grease-pencil data may have been refreshed by
`stats_object`) is returned alongside the accumulator. -/
def stats_dupli_object (ob : Object) (stats : SceneStats) :
    SceneStats × Object :=
  let is_selected := ob.base_selected
  let stats :=
    if is_selected then { stats with totobjsel := stats.totobjsel + 1 }
    else stats
  if ob.transflag.dupliparts then
    let stats := ob.particlesystem.foldl psysContribution stats
    let r := stats_object ob.data is_selected 1 stats
    ({ r.1 with totobj := r.1.totobj + 1 }, { ob with data := r.2 })
  else if
      (match ob.parent with
       | some p => p.dupliverts || p.duplifaces
       | none => false) then
    let tot : Int :=
      if ob.data.type = .OB_MBALL then 1
      else
        match ob.parent with
        | some p => (p.duplilist_count : Int)
        | none => 0
    let stats := { stats with totobj := stats.totobj + tot }
    let r := stats_object ob.data is_selected tot stats
    (r.1, { ob with data := r.2 })
  else if ob.transflag.dupliframes then
    let tot : Int := ob.duplilist_count
    let stats := { stats with totobj := stats.totobj + tot }
    let r := stats_object ob.data is_selected tot stats
    (r.1, { ob with data := r.2 })
  else if ob.transflag.duplicollection && ob.dup_group.isSome then
    let tot : Int := ob.duplilist_count
    let stats := { stats with totobj := stats.totobj + tot }
    let r := stats_object ob.data is_selected tot stats
    (r.1, { ob with data := r.2 })
  else
    let r := stats_object ob.data is_selected 1 stats
    ({ r.1 with totobj := r.1.totobj + 1 }, { ob with data := r.2 })

/-- Translation of `stats_is_object_dynamic_topology_sculpt`:
`ob && (object_mode & OB_MODE_SCULPT) && ob->sculpt && ob->sculpt->bm`
(`sculpt_bm = some _` models a sculpt session with a live BMesh). -/
def stats_is_object_dynamic_topology_sculpt (ob : Option Object)
    (object_mode : ObjectMode) : Bool :=
  match ob with
  | some o => object_mode.sculpt && o.sculpt_bm.isSome
  | none => false

/-- A view layer (`ViewLayer` plus what the iteration helpers read from
it): the active object (`OBACT`), the evaluated objects in render order
(the `DEG_OBJECT_ITER_FOR_RENDER_ENGINE` sequence), the objects of the
shared edit session (the `FOREACH_OBJECT_IN_MODE` sequence), and the
active collection's user-interface name. -/
structure ViewLayerCtx where
  active : Option Object := none
  objects : List Object := []
  editSession : List Object := []
  collectionName : String := ""

/-- `OBEDIT_FROM_OBACT`: the active object when its `OB_MODE_EDIT` bit is
set, otherwise NULL. -/
def OBEDIT_FROM_OBACT : Option Object → Option Object
  | some o => if o.mode.edit then some o else none
  | none => none

/-- `OBEDIT_FROM_VIEW_LAYER` on the modelled view layer. -/
def OBEDIT_FROM_VIEW_LAYER (ctx : ViewLayerCtx) : Option Object :=
  OBEDIT_FROM_OBACT ctx.active

/-- The edit-mode walker: `stats_object_edit` folded over the objects of
the shared edit session. -/
def editWalker (ctx : ViewLayerCtx) : SceneStats :=
  ctx.editSession.foldl (fun s o => stats_object_edit o s) emptyStats

/-- The pose-mode walker: `stats_object_pose` on the active object. -/
def poseWalker (ctx : ViewLayerCtx) : SceneStats :=
  match ctx.active with
  | some o => stats_object_pose o emptyStats
  | none => emptyStats

/-- The dynamic-topology sculpt reader on the active object. -/
def sculptWalker (ctx : ViewLayerCtx) : SceneStats :=
  match ctx.active with
  | some o =>
    match o.sculpt_bm with
    | some bm => stats_object_sculpt_dynamic_topology bm emptyStats
    | none => emptyStats
  | none => emptyStats

/-- The object-mode walk: `stats_dupli_object` over the evaluated object
sequence, threading the (possibly updated) objects through. -/
def objectsWalk : List Object → SceneStats → SceneStats × List Object
  | [], stats => (stats, [])
  | ob :: rest, stats =>
    let r := stats_dupli_object ob stats
    let r2 := objectsWalk rest r.1
    (r2.1, r.2 :: r2.2)

/-- The object-mode walker: the fold over
`DEG_OBJECT_ITER_FOR_RENDER_ENGINE`, returning the accumulator and the
view layer with its (possibly updated) objects. -/
def objectWalker (ctx : ViewLayerCtx) : SceneStats × ViewLayerCtx :=
  let r := objectsWalk ctx.objects emptyStats
  (r.1, { ctx with objects := r.2 })

/-- The four traversal modes of the Mode Classifier. -/
inductive StatsMode where
  | Edit
  | Pose
  | SculptDynamicTopology
  | Objects
deriving Repr, DecidableEq

/-- The Mode Classifier as implemented by `stats_update`'s branch
conditions: edit object present, else active object posing, else active
object in dynamic-topology sculpt, else plain objects. -/
def classify (ctx : ViewLayerCtx) : StatsMode :=
  if (OBEDIT_FROM_VIEW_LAYER ctx).isSome then .Edit
  else
    match ctx.active with
    | some o =>
      if o.mode.pose then .Pose
      else if stats_is_object_dynamic_topology_sculpt (some o) o.mode then
        .SculptDynamicTopology
      else .Objects
    | none => .Objects

/-- The Mode Classifier as the specification words it:
`classify(activeObject, editObject)` — edit object present selects Edit;
else an active object in pose mode selects Pose; else an active object in
sculpt mode with an active dynamic-topology structure selects
SculptDynamicTopology; else Object. -/
def classifySpec (activeObject editObject : Option Object) : StatsMode :=
  if editObject.isSome then .Edit
  else
    match activeObject with
    | some o =>
      if o.mode.pose then .Pose
      else if o.mode.sculpt ∧ o.sculpt_bm.isSome then .SculptDynamicTopology
      else .Objects
    | none => .Objects

/-- Translation of `stats_update`: a fresh zero accumulator is filled by
exactly one walker, chosen by the branch cascade; the view layer is
returned with any object updates made by the object-mode walk. -/
def stats_update (ctx : ViewLayerCtx) : SceneStats × ViewLayerCtx :=
  if (OBEDIT_FROM_VIEW_LAYER ctx).isSome then
    (editWalker ctx, ctx)
  else
    match ctx.active with
    | some o =>
      if o.mode.pose then (poseWalker ctx, ctx)
      else if stats_is_object_dynamic_topology_sculpt (some o) o.mode then
        (sculptWalker ctx, ctx)
      else objectWalker ctx
    | none => objectWalker ctx

/-- Insert the digit-group separator every three characters of a
reversed digit list, as `BLI_str_format_uint64_grouped` does. -/
def insertGroupSep : List Char → List Char
  | c1 :: c2 :: c3 :: c4 :: rest => c1 :: c2 :: c3 :: ',' :: insertGroupSep (c4 :: rest)
  | l => l

/-- Translation of `BLI_str_format_uint64_grouped`: the counter rendered
as a decimal string with three-digit grouping.  Counters are always
non-negative; the `uint64_t` argument is modelled by `Int.toNat`. -/
def BLI_str_format_uint64_grouped (n : Int) : String :=
  String.mk (insertGroupSep (toString n.toNat).data.reverse).reverse

/-- Modelled from the spec: the external `BLI_str_format_byte_unit`
renders a byte count as a human-readable unit string. -/
def BLI_str_format_byte_unit (n : Nat) : String :=
  if n < 1024 then toString n ++ " B"
  else if n < 1024 * 1024 then toString (n / 1024) ++ " KB"
  else if n < 1024 * 1024 * 1024 then toString (n / (1024 * 1024)) ++ " MB"
  else toString (n / (1024 * 1024 * 1024)) ++ " GB"

/-- The external readings consumed by `stats_string`: process and mapped
memory in use, the GPU backend's memory-statistics support and figures,
and the version tag `versionstr`. -/
structure StatsEnv where
  mem_in_use : Nat := 0
  mmap_in_use : Nat := 0
  gpu_mem_stats_supported : Bool := false
  gpu_tot_memory : Nat := 0
  gpu_free_mem : Nat := 0
  versionstr : String := ""
deriving Repr, DecidableEq

/-- The memory suffix `memstr` built by `stats_string`:
`" | Mem: %s"` plus, when mapped memory is in use, `" (%s)"`. -/
def statsMemstr (env : StatsEnv) : String :=
  " | Mem: " ++ BLI_str_format_byte_unit (env.mem_in_use - env.mmap_in_use) ++
    (if env.mmap_in_use ≠ 0 then
      " (" ++ BLI_str_format_byte_unit env.mmap_in_use ++ ")"
    else "")

/-- The GPU memory suffix `gpumemstr` built by `stats_string`: empty
unless the backend supports memory statistics, otherwise
`" | Free GPU Mem: %s"` plus, when a total figure exists, `"/%s"`. -/
def statsGpumemstr (env : StatsEnv) : String :=
  if env.gpu_mem_stats_supported then
    " | Free GPU Mem: " ++ BLI_str_format_byte_unit env.gpu_free_mem ++
      (if env.gpu_tot_memory ≠ 0 then
        "/" ++ BLI_str_format_byte_unit env.gpu_tot_memory
      else "")
  else ""

/-- The body of `stats_string` up to (and excluding) the trailing
version tag: leading names, template selection by mode, memory suffixes.
The 512-byte truncation of the C buffer is not modelled; the claims
checked here do not depend on it. -/
def statsStringBody (env : StatsEnv) (ctx : ViewLayerCtx)
    (stats : SceneStats) : String :=
  let ob := ctx.active
  let obedit := OBEDIT_FROM_OBACT ob
  let object_mode := match ob with | some o => o.mode | none => OB_MODE_OBJECT
  let memstr := statsMemstr env
  let gpumemstr := statsGpumemstr env
  let fmt := BLI_str_format_uint64_grouped
  let s :=
    if object_mode = OB_MODE_OBJECT then ctx.collectionName ++ " | "
    else ""
  let s :=
    match ob with
    | some o => s ++ o.name ++ " | "
    | none => s
  match obedit with
  | some oe =>
    let s := s ++ (if oe.has_shape_key then "(Key) " else "")
    let s :=
      if oe.data.type = .OB_MESH then
        s ++ "Verts:" ++ fmt stats.totvertsel ++ "/" ++ fmt stats.totvert ++
          " | Edges:" ++ fmt stats.totedgesel ++ "/" ++ fmt stats.totedge ++
          " | Faces:" ++ fmt stats.totfacesel ++ "/" ++ fmt stats.totface ++
          " | Tris:" ++ fmt stats.tottri
      else if oe.data.type = .OB_ARMATURE then
        s ++ "Verts:" ++ fmt stats.totvertsel ++ "/" ++ fmt stats.totvert ++
          " | Bones:" ++ fmt stats.totbonesel ++ "/" ++ fmt stats.totbone
      else
        s ++ "Verts:" ++ fmt stats.totvertsel ++ "/" ++ fmt stats.totvert
    s ++ memstr ++ gpumemstr
  | none =>
    match ob with
    | some o =>
      if o.mode.pose then
        s ++ "Bones:" ++ fmt stats.totbonesel ++ "/" ++ fmt stats.totbone ++
          " " ++ memstr ++ gpumemstr
      else if o.data.type = .OB_GPENCIL then
        s ++ "Layers:" ++ fmt stats.totgplayer ++
          " | Frames:" ++ fmt stats.totgpframe ++
          " | Strokes:" ++ fmt stats.totgpstroke ++
          " | Points:" ++ fmt stats.totgppoint ++
          " | Objects:" ++ fmt stats.totobjsel ++ "/" ++ fmt stats.totobj ++
          memstr ++ gpumemstr
      else if stats_is_object_dynamic_topology_sculpt (some o) object_mode then
        s ++ "Verts:" ++ fmt stats.totvert ++ " | Tris:" ++ fmt stats.tottri ++
          gpumemstr
      else
        s ++ "Verts:" ++ fmt stats.totvert ++ " | Faces:" ++ fmt stats.totface ++
          " | Tris:" ++ fmt stats.tottri ++
          " | Objects:" ++ fmt stats.totobjsel ++ "/" ++ fmt stats.totobj ++
          memstr ++ gpumemstr
    | none =>
      s ++ "Verts:" ++ fmt stats.totvert ++ " | Faces:" ++ fmt stats.totface ++
        " | Tris:" ++ fmt stats.tottri ++
        " | Objects:" ++ fmt stats.totobjsel ++ "/" ++ fmt stats.totobj ++
        memstr ++ gpumemstr

/-- Translation of `stats_string`: format the cached accumulator into its
`infostr`, ending with the `" | %s"` version tag. -/
def stats_string (env : StatsEnv) (ctx : ViewLayerCtx)
    (stats : SceneStats) : SceneStats :=
  { stats with infostr := statsStringBody env ctx stats ++ " | " ++ env.versionstr }

/-- Translation of `ED_info_stats_clear`: drop the cached accumulator. -/
def ED_info_stats_clear (_cache : Option SceneStats) : Option SceneStats :=
  none

/-- Translation of `ED_info_stats_string`: recompute the accumulator only
when the cache is absent, then (re)format the display string.  Returns
the string, the view layer (whose objects a recomputation may have
updated), the new cache, and whether a recomputation ran. -/
def ED_info_stats_string (env : StatsEnv) (ctx : ViewLayerCtx)
    (cache : Option SceneStats) :
    String × ViewLayerCtx × Option SceneStats × Bool :=
  match cache with
  | none =>
    let r := stats_update ctx
    let st := stats_string env r.2 r.1
    (st.infostr, r.2, some st, true)
  | some st0 =>
    let st := stats_string env ctx st0
    (st.infostr, ctx, some st, false)

mutual

/-- The depth-first enumeration order of a collection's objects used by
the two group passes: own members first, then the children in order. -/
def collectionFlatten : Collection → List ObData
  | .mk gobject children => gobject ++ flattenChildren children

/-- Depth-first enumeration of a child-collection list. -/
def flattenChildren : CollectionList → List ObData
  | .nil => []
  | .cons c rest => collectionFlatten c ++ flattenChildren rest

end

/-- The `(member, multiplier)` pairs contributed by a member list. -/
def groupCallsMembers (members : List ObData) (psys : ParticleSystem)
    (totgroup cur : Nat) : List (ObData × Nat) × Nat :=
  match members with
  | [] => ([], cur)
  | cob :: rest =>
    let tot := count_particles_mod psys totgroup cur
    let r := groupCallsMembers rest psys totgroup (cur + 1)
    ((cob, tot) :: r.1, r.2)

mutual

/-- The sequence of `(member, multiplier)` pairs with which
`stats_dupli_object_group_doit` invokes `stats_object`, together with the
final member index. -/
def groupCalls (c : Collection) (psys : ParticleSystem)
    (totgroup cur : Nat) : List (ObData × Nat) × Nat :=
  match c with
  | .mk gobject children =>
    let r := groupCallsMembers gobject psys totgroup cur
    let r2 := groupCallsChildren children psys totgroup r.2
    (r.1 ++ r2.1, r2.2)

/-- The `(member, multiplier)` pairs contributed by a child-collection
list. -/
def groupCallsChildren (cs : CollectionList) (psys : ParticleSystem)
    (totgroup cur : Nat) : List (ObData × Nat) × Nat :=
  match cs with
  | .nil => ([], cur)
  | .cons c rest =>
    let r := groupCalls c psys totgroup cur
    let r2 := groupCallsChildren rest psys totgroup r.2
    (r.1 ++ r2.1, r2.2)

end

/-- An evaluated mesh built from a list of per-polygon vertex counts:
`totpoly` polygons with `totloop` corners in total. -/
def meshOfPolys (v e : Nat) (ks : List Nat) : MeshEval :=
  ⟨v, e, ks.length, ks.sum⟩

/-- The selected sub-counters of the accumulator, as one tuple. -/
def selCounters (s : SceneStats) : Int × Int × Int × Int × Int × Int :=
  (s.totvertsel, s.totedgesel, s.totfacesel, s.totbonesel, s.totobjsel,
    s.totlampsel)

/-- The `*sel ≤ tot` accumulator invariant named by the spec. -/
def selLeTot (s : SceneStats) : Prop :=
  s.totvertsel ≤ s.totvert ∧ s.totfacesel ≤ s.totface ∧
    s.totbonesel ≤ s.totbone ∧ s.totobjsel ≤ s.totobj

instance (s : SceneStats) : Decidable (selLeTot s) := by
  unfold selLeTot; infer_instance

/-- An edit mesh whose maintained selected counters do not exceed its
totals (an invariant of the external BMesh container). -/
def editMeshOk (ob : Object) : Prop :=
  match ob.editmesh with
  | some em =>
    em.bm.totvertsel ≤ em.bm.totvert ∧ em.bm.totedgesel ≤ em.bm.totedge ∧
      em.bm.totfacesel ≤ em.bm.totface
  | none => True

/-- Synchronised selection for one edit bone: when connected and
parented, its root is selected exactly when the parent's tip is. -/
def boneSyncOk (ebo : EditBone) : Prop :=
  ebo.connected = true →
    match ebo.parent with
    | some p => ebo.rootsel = p.tipsel
    | none => True

/-- Synchronised armature selection: every connected edit bone with a
parent has its root selected exactly when the parent's tip is selected. -/
def armSyncOk (ob : Object) : Prop :=
  ∀ ebo ∈ ob.edbo, boneSyncOk ebo

/-- Positive external instance counts for one object: its own
duplication-list count and its parent's are at least 1. -/
def dupCountsPos (ob : Object) : Prop :=
  1 ≤ ob.duplilist_count ∧
    match ob.parent with
    | some p => 1 ≤ p.duplilist_count
    | none => True

/-- The scene-side hypotheses under which the `*sel ≤ tot` invariant
holds: positive external instance counts for every object, consistent
edit-mesh counters and synchronised armature selection for every member
of the edit session. -/
def ctxOk (ctx : ViewLayerCtx) : Prop :=
  (∀ ob ∈ ctx.objects, dupCountsPos ob) ∧
    ∀ ob ∈ ctx.editSession, editMeshOk ob ∧ armSyncOk ob

instance (ob : Object) : Decidable (dupCountsPos ob) := by
  unfold dupCountsPos
  rcases h : ob.parent with _ | p <;> dsimp only <;> infer_instance

instance (ebo : EditBone) : Decidable (boneSyncOk ebo) := by
  unfold boneSyncOk
  rcases h : ebo.parent with _ | q <;> dsimp only <;> infer_instance

instance (ob : Object) : Decidable (armSyncOk ob) := by
  unfold armSyncOk; infer_instance

instance (ob : Object) : Decidable (editMeshOk ob) := by
  unfold editMeshOk
  rcases h : ob.editmesh with _ | em <;> dsimp only <;> infer_instance

instance (ctx : ViewLayerCtx) : Decidable (ctxOk ctx) := by
  unfold ctxOk; infer_instance

/-- A particle system with no duplication target: no target object and
no target collection. -/
def psysTargetAbsent (psys : ParticleSystem) : Prop :=
  psys.dup_ob = none ∧ psys.dup_group.isNone = true

instance (psys : ParticleSystem) : Decidable (psysTargetAbsent psys) := by
  unfold psysTargetAbsent; infer_instance

/-- An object's grease-pencil data with the cached statistics fields
cleared; equality after this erasure means two objects agree everywhere
except possibly in those cached fields. -/
def eraseGPCacheData (d : ObData) : ObData :=
  { d with gpd := { d.gpd with totlayer := 0, totframe := 0, totstroke := 0, totpoint := 0 } }

/-- An object with its grease-pencil cached statistics fields cleared. -/
def eraseGPCache (ob : Object) : Object :=
  { ob with data := eraseGPCacheData ob.data }

/-- The counters that a given traversal mode never touches, all required
to be zero after its recomputation. -/
def exclusiveZeros (m : StatsMode) (s : SceneStats) : Prop :=
  match m with
  | .Edit =>
    s.totobj = 0 ∧ s.totobjsel = 0 ∧ s.totlamp = 0 ∧ s.totlampsel = 0 ∧
      s.totgplayer = 0 ∧ s.totgpframe = 0 ∧ s.totgpstroke = 0 ∧
      s.totgppoint = 0
  | .Pose =>
    s.totvert = 0 ∧ s.totvertsel = 0 ∧ s.totedge = 0 ∧ s.totedgesel = 0 ∧
      s.totface = 0 ∧ s.totfacesel = 0 ∧ s.totobj = 0 ∧ s.totobjsel = 0 ∧
      s.totlamp = 0 ∧ s.totlampsel = 0 ∧ s.tottri = 0 ∧
      s.totgplayer = 0 ∧ s.totgpframe = 0 ∧ s.totgpstroke = 0 ∧
      s.totgppoint = 0
  | .SculptDynamicTopology =>
    s.totvertsel = 0 ∧ s.totedge = 0 ∧ s.totedgesel = 0 ∧
      s.totface = 0 ∧ s.totfacesel = 0 ∧ s.totbone = 0 ∧ s.totbonesel = 0 ∧
      s.totobj = 0 ∧ s.totobjsel = 0 ∧ s.totlamp = 0 ∧ s.totlampsel = 0 ∧
      s.totgplayer = 0 ∧ s.totgpframe = 0 ∧ s.totgpstroke = 0 ∧
      s.totgppoint = 0
  | .Objects =>
    s.totbone = 0 ∧ s.totbonesel = 0 ∧ s.totedgesel = 0

/-- A root edit bone: not connected, nothing selected, no parent. -/
def c1RootBone : EditBone := ⟨false, false, false, false, none⟩

/-- A child edit bone flagged connected, with an (unselected-tip)
parent. -/
def c1ChildBone : EditBone := ⟨true, false, false, false, some ⟨false⟩⟩

/-- An armature object in edit mode holding one root bone and one
connected child bone. -/
def c1Armature : Object :=
  { data := { type := .OB_ARMATURE }
    mode := { edit := true }
    edbo := [c1RootBone, c1ChildBone] }

/-- A connected edit bone with both its tip and its root selected whose
parent's tip is not selected. -/
def c2SelBone : EditBone := ⟨true, true, true, false, some ⟨false⟩⟩

/-- An armature in edit mode with one unselected root bone and three
fully point-selected connected children of it. -/
def c2Armature : Object :=
  { data := { type := .OB_ARMATURE }
    mode := { edit := true }
    edbo := [⟨false, false, false, false, none⟩, c2SelBone, c2SelBone, c2SelBone] }

/-- A view layer whose active object is the `c2Armature` edit armature. -/
def c2Ctx : ViewLayerCtx :=
  { active := some c2Armature
    editSession := [c2Armature] }

/-- A selected mesh object with a small evaluated mesh (4 vertices,
4 edges, 1 quad polygon) and no duplication. -/
def c2WitnessObject : Object :=
  { data := { type := .OB_MESH, mesh_eval := some ⟨4, 4, 1, 4⟩ }
    base_selected := true
    duplilist_count := 1 }

/-- A plain object-mode view layer holding one selected mesh object. -/
def c2WitnessCtx : ViewLayerCtx :=
  { objects := [c2WitnessObject] }

/-- A particle system with 10 live particles, drawing a collection. -/
def c3Psys : ParticleSystem :=
  { tot_particles := 10, draw_as := .PART_DRAW_GR }

/-- A collection with three member objects spread over the collection
itself and two nested children (depth-first order `m1, m2, m3`). -/
def c3Coll : Collection :=
  .mk [{ type := .OB_MESH }]
    (.cons (.mk [{ type := .OB_LAMP }] .nil)
      (.cons (.mk [{ type := .OB_MBALL }] .nil) .nil))

/-- A selected grease-pencil object whose cached statistics fields are
stale (cached totals 0, live content 1/2/3/4). -/
def c8GPObject : Object :=
  { data := { type := .OB_GPENCIL, gpd := ⟨1, 2, 3, 4, 0, 0, 0, 0⟩ }
    base_selected := true }

/-- An object-mode view layer holding the stale grease-pencil object. -/
def c8Ctx : ViewLayerCtx :=
  { objects := [c8GPObject] }

/-- An armature object with no pose data (`ob->pose == NULL`). -/
def c9PoselessObject : Object :=
  { data := { type := .OB_ARMATURE }
    mode := { pose := true }
    pose := none }

/-- A particle-duplicating object whose two particle systems both lack
a duplication target (single-object mode with no object, collection mode
with no collection). -/
def c9PartsObject : Object :=
  { data := { type := .OB_MESH, mesh_eval := some ⟨8, 12, 6, 24⟩ }
    base_selected := true
    transflag := { dupliparts := true }
    particlesystem :=
      [{ tot_particles := 7, draw_as := .PART_DRAW_OB }
       , { tot_particles := 3, draw_as := .PART_DRAW_GR }] }

/-- A particle-duplicating object with one single-object system (5
particles, mesh target) and one collection system (10 particles,
targeting `c3Coll`). -/
def c10Object : Object :=
  { data := { type := .OB_MESH, mesh_eval := some ⟨8, 12, 6, 24⟩ }
    base_selected := true
    transflag := { dupliparts := true }
    particlesystem :=
      [{ tot_particles := 5, draw_as := .PART_DRAW_OB
         , dup_ob := some { type := .OB_MESH, mesh_eval := some ⟨3, 3, 1, 3⟩ } }
       , { tot_particles := 10, draw_as := .PART_DRAW_GR, dup_group := some c3Coll }] }

/-- The relation that the selection-off counting paths establish between
input and output accumulators: selected sub-counters, bone total and
object total unchanged; vertex and face totals not decreased. -/
def Qrel (s r : SceneStats) : Prop :=
  selCounters r = selCounters s ∧ r.totbone = s.totbone ∧
    r.totobj = s.totobj ∧ s.totvert ≤ r.totvert ∧ s.totface ≤ r.totface

theorem Qrel_refl (s : SceneStats) : Qrel s s := by
  unfold Qrel; exact ⟨rfl, rfl, rfl, le_refl _, le_refl _⟩

theorem Qrel_trans {s r u : SceneStats} (h1 : Qrel s r) (h2 : Qrel r u) :
    Qrel s u := by
  obtain ⟨a1, b1, c1, d1, e1⟩ := h1
  obtain ⟨a2, b2, c2, d2, e2⟩ := h2
  exact ⟨a2.trans a1, b2.trans b1, c2.trans c1, d1.trans d2, e1.trans e2⟩

theorem so_sel_const (d : ObData) (t : Int) (s : SceneStats) :
    selCounters (stats_object d false t s).1 = selCounters s := by
  rcases d with ⟨ty, me, cc, g⟩
  cases ty <;>
    simp [stats_object, stats_mesheval, stats_object_displist, selCounters] <;>
    rcases me with _ | m <;>
    simp [stats_object, stats_mesheval, stats_object_displist, selCounters]

theorem so_const (d : ObData) (sel : Bool) (t : Int) (s : SceneStats) :
    (stats_object d sel t s).1.totbone = s.totbone ∧
      (stats_object d sel t s).1.totbonesel = s.totbonesel ∧
      (stats_object d sel t s).1.totedgesel = s.totedgesel ∧
      (stats_object d sel t s).1.totobj = s.totobj ∧
      (stats_object d sel t s).1.totobjsel = s.totobjsel := by
  rcases d with ⟨ty, me, cc, g⟩
  cases ty <;> cases sel <;>
    simp [stats_object, stats_mesheval, stats_object_displist] <;>
    rcases me with _ | m <;>
    simp [stats_object, stats_mesheval, stats_object_displist]

theorem so_mono (d : ObData) (sel : Bool) (t : Int) (s : SceneStats)
    (ht : 0 ≤ t) :
    s.totvert ≤ (stats_object d sel t s).1.totvert ∧
      s.totface ≤ (stats_object d sel t s).1.totface := by
  rcases d with ⟨ty, me, cc, g⟩
  cases ty <;> cases sel <;>
    rcases me with _ | m <;>
    rcases cc with _ | c <;>
    simp [stats_object, stats_mesheval, stats_object_displist] <;>
    constructor <;>
    positivity

theorem mesheval_pres_vf (me : Option MeshEval) (sel : Bool) (t : Int)
    (s : SceneStats) (ht : 1 ≤ t) (h1 : s.totvertsel ≤ s.totvert)
    (h2 : s.totfacesel ≤ s.totface) :
    (stats_mesheval me sel t s).2.totvertsel ≤
        (stats_mesheval me sel t s).2.totvert ∧
      (stats_mesheval me sel t s).2.totfacesel ≤
        (stats_mesheval me sel t s).2.totface := by
  rcases me with _ | m
  · exact ⟨h1, h2⟩
  · cases sel <;> simp [stats_mesheval] <;> constructor <;>
      nlinarith [Int.natCast_nonneg m.totvert, Int.natCast_nonneg m.totpoly]

theorem displist_pres_vf (d : ObData) (sel : Bool) (t : Int)
    (s : SceneStats) (ht : 0 ≤ t) (h1 : s.totvertsel ≤ s.totvert)
    (h2 : s.totfacesel ≤ s.totface) :
    (stats_object_displist d sel t s).totvertsel ≤
        (stats_object_displist d sel t s).totvert ∧
      (stats_object_displist d sel t s).totfacesel ≤
        (stats_object_displist d sel t s).totface := by
  rcases d with ⟨ty, me, cc, g⟩
  rcases cc with _ | c
  · cases sel <;> simp [stats_object_displist] <;> exact ⟨h1, h2⟩
  · cases sel <;> simp [stats_object_displist] <;> constructor <;>
      nlinarith [Int.natCast_nonneg c.totv, Int.natCast_nonneg c.totf]

theorem so_pres_vf (d : ObData) (sel : Bool) (t : Int) (s : SceneStats)
    (ht : 1 ≤ t) (h1 : s.totvertsel ≤ s.totvert)
    (h2 : s.totfacesel ≤ s.totface) :
    (stats_object d sel t s).1.totvertsel ≤ (stats_object d sel t s).1.totvert ∧
      (stats_object d sel t s).1.totfacesel ≤ (stats_object d sel t s).1.totface := by
  have ht0 : (0 : Int) ≤ t := le_trans (by norm_num) ht
  rcases d with ⟨ty, me, cc, g⟩
  cases ty
  case OB_MESH => exact mesheval_pres_vf me sel t s ht h1 h2
  case OB_LAMP => simp [stats_object]; cases sel <;> simp <;> exact ⟨h1, h2⟩
  case OB_CURVE =>
    simp only [stats_object]
    split
    · exact mesheval_pres_vf me sel t s ht h1 h2
    · exact displist_pres_vf ⟨.OB_CURVE, me, cc, g⟩ sel t s ht0 h1 h2
  case OB_SURF =>
    simp only [stats_object]
    split
    · exact mesheval_pres_vf me sel t s ht h1 h2
    · exact displist_pres_vf ⟨.OB_SURF, me, cc, g⟩ sel t s ht0 h1 h2
  case OB_FONT =>
    simp only [stats_object]
    split
    · exact mesheval_pres_vf me sel t s ht h1 h2
    · exact displist_pres_vf ⟨.OB_FONT, me, cc, g⟩ sel t s ht0 h1 h2
  case OB_MBALL => exact displist_pres_vf ⟨.OB_MBALL, me, cc, g⟩ sel t s ht0 h1 h2
  case OB_GPENCIL => simp [stats_object]; cases sel <;> simp <;> exact ⟨h1, h2⟩
  case OB_ARMATURE => exact ⟨h1, h2⟩
  case OB_LATTICE => exact ⟨h1, h2⟩
  case OB_EMPTY => exact ⟨h1, h2⟩

theorem so_sel_congr (d : ObData) (sel : Bool) (t : Int) {s s' : SceneStats}
    (h : selCounters s = selCounters s') :
    selCounters (stats_object d sel t s).1 =
      selCounters (stats_object d sel t s').1 := by
  simp only [selCounters, Prod.mk.injEq] at h
  obtain ⟨e1, e2, e3, e4, e5, e6⟩ := h
  rcases d with ⟨ty, me, cc, g⟩
  cases ty <;> cases sel <;> rcases me with _ | m <;> rcases cc with _ | c <;>
    simp [stats_object, stats_mesheval, stats_object_displist, selCounters,
      Prod.mk.injEq] <;>
    omega

theorem so_nosel_Qrel (d : ObData) (t : Int) (s : SceneStats) (ht : 0 ≤ t) :
    Qrel s (stats_object d false t s).1 :=
  ⟨so_sel_const d t s, (so_const d false t s).1, (so_const d false t s).2.2.2.1,
    (so_mono d false t s ht).1, (so_mono d false t s ht).2⟩

theorem group_doit_members_Qrel (l : List ObData) (s : SceneStats)
    (psys : ParticleSystem) (tg cur : Nat) :
    Qrel s (group_doit_members l s psys tg cur).1 := by
  induction l generalizing s cur with
  | nil => exact Qrel_refl s
  | cons cob rest ih =>
    simp only [group_doit_members]
    exact Qrel_trans
      (so_nosel_Qrel cob _ s (Int.natCast_nonneg _)) (ih _ _)

mutual

theorem doit_Qrel : ∀ (c : Collection) (s : SceneStats)
    (psys : ParticleSystem) (tg cur : Nat),
    Qrel s (stats_dupli_object_group_doit c s psys tg cur).1
  | .mk g ch, s, psys, tg, cur => by
    simp only [stats_dupli_object_group_doit]
    exact Qrel_trans (group_doit_members_Qrel g s psys tg cur)
      (doit_children_Qrel ch _ psys tg _)

theorem doit_children_Qrel : ∀ (cs : CollectionList) (s : SceneStats)
    (psys : ParticleSystem) (tg cur : Nat),
    Qrel s (group_doit_children cs s psys tg cur).1
  | .nil, s, _, _, _ => Qrel_refl s
  | .cons c rest, s, psys, tg, cur => by
    simp only [group_doit_children]
    exact Qrel_trans (doit_Qrel c s psys tg cur)
      (doit_children_Qrel rest _ psys tg _)

end

theorem psys_Qrel (s : SceneStats) (psys : ParticleSystem) :
    Qrel s (psysContribution s psys) := by
  rcases psys with ⟨tp, da, dob, dgr⟩
  cases da <;> rcases dob with _ | target <;> rcases dgr with _ | coll <;>
    simp only [psysContribution] <;>
    first
      | exact Qrel_refl _
      | exact so_nosel_Qrel _ _ _ (Int.natCast_nonneg _)
      | exact doit_Qrel _ _ _ _ _

theorem psys_fold_Qrel (l : List ParticleSystem) (s : SceneStats) :
    Qrel s (l.foldl psysContribution s) := by
  induction l generalizing s with
  | nil => exact Qrel_refl s
  | cons p rest ih =>
    exact Qrel_trans (psys_Qrel s p) (ih _)

theorem sum_map_sub_two (ks : List Nat) :
    (ks.map (fun (k : Nat) => ((k : Int) - 2))).sum =
      (ks.sum : Int) - 2 * ks.length := by
  induction ks with
  | nil => simp
  | cons k rest ih =>
    rw [List.map_cons, List.sum_cons, ih]
    push_cast [List.map_cons, List.sum_cons, List.length_cons]
    ring

/-- C1: in Edit mode, each edit bone raises `totbone` by 1; raises
`totvert` by 2, or by 1 when it is connected and has a parent; tip and
root selection each independently raise `totvertsel` by 1, except that a
connected, root-selected bone whose parent's tip is also selected has 1
subtracted again; and the two-bone armature (root plus connected child)
yields `totvert = 3`, `totbone = 2`. -/
theorem c1_armature_walker_counts :
    (∀ (st : SceneStats) (ebo : EditBone),
      (armStep st ebo).totbone = st.totbone + 1 ∧
      (armStep st ebo).totvert =
        st.totvert + (if ebo.connected && ebo.parent.isSome then 1 else 2) ∧
      (armStep st ebo).totvertsel =
        st.totvertsel + (if ebo.tipsel then 1 else 0) +
          (if ebo.rootsel then 1 else 0) -
          (if ebo.connected && ebo.rootsel &&
              (match ebo.parent with
               | some p => p.tipsel
               | none => false) then 1 else 0) ∧
      (armStep st ebo).totbonesel =
        st.totbonesel + (if ebo.selected then 1 else 0)) ∧
    (stats_object_edit c1Armature emptyStats).totvert = 3 ∧
    (stats_object_edit c1Armature emptyStats).totbone = 2 := by
  refine ⟨?_, by decide, by decide⟩
  intro st ebo
  rcases ebo with ⟨c, tsel, rsel, bsel, p⟩
  rcases p with _ | ⟨⟨pt⟩⟩
  · cases c <;> cases tsel <;> cases rsel <;> cases bsel <;>
      simp [armStep]
  · cases c <;> cases tsel <;> cases rsel <;> cases bsel <;> cases pt <;>
      simp [armStep] <;> omega

/-- C4: for an evaluated mesh whose polygons have vertex counts
`ks = [k1..kn]`, the triangle total added by the Per-Object Counter at
multiplier 1 (before any instance multiplication) is `Σ (ki − 2)`,
derived from the polygon and loop totals. -/
theorem c4_triangle_count_law (v e : Nat) (ks : List Nat)
    (cc : Option DispListCount) (g : BGPdata) (sel : Bool)
    (st : SceneStats) :
    (stats_object ⟨.OB_MESH, some (meshOfPolys v e ks), cc, g⟩ sel 1 st).1.tottri
      = st.tottri + (ks.map (fun (k : Nat) => ((k : Int) - 2))).sum := by
  rw [sum_map_sub_two]
  cases sel <;>
    simp [stats_object, stats_mesheval, meshOfPolys, poly_to_tri_count]

/-- C4 witness: a mesh of one triangle and one quad (7 loops in total)
adds `(3 − 2) + (4 − 2) = 3` triangles at multiplier 1. -/
theorem c4_triangle_count_law_witness :
    (stats_object ⟨.OB_MESH, some (meshOfPolys 5 6 [3, 4]), none,
        ⟨0, 0, 0, 0, 0, 0, 0, 0⟩⟩ true 1 emptyStats).1.tottri
      = emptyStats.tottri +
        (([3, 4] : List Nat).map (fun (k : Nat) => ((k : Int) - 2))).sum := by
  have h := c4_triangle_count_law 5 6 [3, 4] none ⟨0, 0, 0, 0, 0, 0, 0, 0⟩
    true emptyStats
  exact h

/-- C5: counting an object with an evaluated mesh multiplies the
vertex/edge/face/triangle totals by the instance multiplier, while the
selected vertex/face sub-totals get the un-multiplied per-instance
counts, exactly once and only when the object is selected, for every
multiplier value. -/
theorem c5_selection_not_multiplied (me : MeshEval)
    (cc : Option DispListCount) (g : BGPdata) (sel : Bool) (n : Int)
    (st : SceneStats) :
    (stats_object ⟨.OB_MESH, some me, cc, g⟩ sel n st).1.totvert
        = st.totvert + (me.totvert : Int) * n ∧
      (stats_object ⟨.OB_MESH, some me, cc, g⟩ sel n st).1.totedge
        = st.totedge + (me.totedge : Int) * n ∧
      (stats_object ⟨.OB_MESH, some me, cc, g⟩ sel n st).1.totface
        = st.totface + (me.totpoly : Int) * n ∧
      (stats_object ⟨.OB_MESH, some me, cc, g⟩ sel n st).1.tottri
        = st.tottri + poly_to_tri_count me.totpoly me.totloop * n ∧
      (stats_object ⟨.OB_MESH, some me, cc, g⟩ sel n st).1.totvertsel
        = st.totvertsel + (if sel then (me.totvert : Int) else 0) ∧
      (stats_object ⟨.OB_MESH, some me, cc, g⟩ sel n st).1.totfacesel
        = st.totfacesel + (if sel then (me.totpoly : Int) else 0) := by
  cases sel <;> simp [stats_object, stats_mesheval]

/-- C10: the Per-Object Counter invoked with selection off leaves every
selected sub-counter unchanged, and consequently a particle-duplicating
object's selected sub-counters are exactly those obtained with its
particle systems ignored — duplicated targets (single-object or
collection members) never contribute to them, whatever their own
selection state. -/
theorem c10_dupli_targets_never_selected :
    (∀ (d : ObData) (t : Int) (s : SceneStats),
      selCounters (stats_object d false t s).1 = selCounters s) ∧
    (∀ (ob : Object) (s : SceneStats), ob.transflag.dupliparts = true →
      selCounters (stats_dupli_object ob s).1 =
        selCounters (stats_dupli_object { ob with particlesystem := [] } s).1) := by
  refine ⟨so_sel_const, ?_⟩
  intro ob s h
  simp only [stats_dupli_object, h, if_true, List.foldl_nil]
  have hfold := (psys_fold_Qrel ob.particlesystem
    (if ob.base_selected then { s with totobjsel := s.totobjsel + 1 } else s)).1
  have hcongr := so_sel_congr ob.data ob.base_selected 1 hfold
  simp only [selCounters] at hcongr ⊢
  simp_all

/-- C10 witness: a lamp counted with selection off at multiplier 3
contributes no selected counts, and the concrete particle-duplicating
object `c10Object` (a selected mesh with a 5-particle single-object
system and a 10-particle collection system) has the same selected
sub-counters as its particle-free variant. -/
theorem c10_dupli_targets_never_selected_witness :
    selCounters (stats_object ⟨.OB_LAMP, none, none, ⟨0, 0, 0, 0, 0, 0, 0, 0⟩⟩
        false 3 emptyStats).1 = selCounters emptyStats ∧
      selCounters (stats_dupli_object c10Object emptyStats).1 =
        selCounters (stats_dupli_object
          { c10Object with particlesystem := [] } emptyStats).1 :=
  ⟨c10_dupli_targets_never_selected.1 _ 3 emptyStats,
    c10_dupli_targets_never_selected.2 c10Object emptyStats (by decide)⟩

mutual

theorem group_count_flatten : ∀ c : Collection,
    stats_dupli_object_group_count c = (collectionFlatten c).length
  | .mk g ch => by
    simp [stats_dupli_object_group_count, collectionFlatten,
      group_count_children_flatten ch]

theorem group_count_children_flatten : ∀ cs : CollectionList,
    group_count_children cs = (flattenChildren cs).length
  | .nil => by simp [group_count_children, flattenChildren]
  | .cons c rest => by
    simp [group_count_children, flattenChildren, group_count_flatten c,
      group_count_children_flatten rest]

end

theorem groupCallsMembers_spec (l : List ObData) (psys : ParticleSystem)
    (tg cur : Nat) :
    groupCallsMembers l psys tg cur =
      ((l.enumFrom cur).map
        (fun p => (p.2, count_particles_mod psys tg p.1)), cur + l.length) := by
  induction l generalizing cur with
  | nil => simp [groupCallsMembers]
  | cons a rest ih =>
    simp [groupCallsMembers, List.enumFrom, ih]
    omega

theorem enumFromAppend {α : Type} (l1 l2 : List α) (n : Nat) :
    (l1 ++ l2).enumFrom n = l1.enumFrom n ++ l2.enumFrom (n + l1.length) := by
  induction l1 generalizing n with
  | nil => simp
  | cons a rest ih =>
    have hn : n + 1 + rest.length = n + (rest.length + 1) := by omega
    calc ((a :: rest) ++ l2).enumFrom n
        = (a :: (rest ++ l2)).enumFrom n := by rw [List.cons_append]
      _ = (n, a) :: (rest ++ l2).enumFrom (n + 1) := rfl
      _ = (n, a) ::
            (rest.enumFrom (n + 1) ++ l2.enumFrom (n + 1 + rest.length)) := by
          rw [ih]
      _ = (n, a) ::
            (rest.enumFrom (n + 1) ++ l2.enumFrom (n + (rest.length + 1))) := by
          rw [hn]
      _ = ((a :: rest).enumFrom n) ++ l2.enumFrom (n + (a :: rest).length) := rfl

mutual

theorem groupCalls_spec : ∀ (c : Collection) (psys : ParticleSystem)
    (tg cur : Nat),
    groupCalls c psys tg cur =
      (((collectionFlatten c).enumFrom cur).map
          (fun p => (p.2, count_particles_mod psys tg p.1)),
        cur + (collectionFlatten c).length)
  | .mk g ch, psys, tg, cur => by
    simp only [groupCalls, collectionFlatten, groupCallsMembers_spec,
      groupCallsChildren_spec ch psys tg (cur + g.length), enumFromAppend,
      List.map_append, List.length_append, Prod.mk.injEq]
    exact ⟨trivial, by omega⟩

theorem groupCallsChildren_spec : ∀ (cs : CollectionList)
    (psys : ParticleSystem) (tg cur : Nat),
    groupCallsChildren cs psys tg cur =
      (((flattenChildren cs).enumFrom cur).map
          (fun p => (p.2, count_particles_mod psys tg p.1)),
        cur + (flattenChildren cs).length)
  | .nil, psys, tg, cur => by simp [groupCallsChildren, flattenChildren]
  | .cons c rest, psys, tg, cur => by
    simp only [groupCallsChildren, flattenChildren,
      groupCalls_spec c psys tg cur,
      groupCallsChildren_spec rest psys tg (cur + (collectionFlatten c).length),
      enumFromAppend, List.map_append, List.length_append, Prod.mk.injEq]
    exact ⟨trivial, by omega⟩

end

theorem members_eq_calls (l : List ObData) (s : SceneStats)
    (psys : ParticleSystem) (tg cur : Nat) :
    group_doit_members l s psys tg cur =
      ((groupCallsMembers l psys tg cur).1.foldl
          (fun s2 p => (stats_object p.1 false (p.2 : Int) s2).1) s,
        (groupCallsMembers l psys tg cur).2) := by
  induction l generalizing s cur with
  | nil => simp [group_doit_members, groupCallsMembers]
  | cons a rest ih =>
    simp [group_doit_members, groupCallsMembers, ih, List.foldl_cons]

mutual

theorem doit_eq_calls : ∀ (c : Collection) (s : SceneStats)
    (psys : ParticleSystem) (tg cur : Nat),
    stats_dupli_object_group_doit c s psys tg cur =
      ((groupCalls c psys tg cur).1.foldl
          (fun s2 p => (stats_object p.1 false (p.2 : Int) s2).1) s,
        (groupCalls c psys tg cur).2)
  | .mk g ch, s, psys, tg, cur => by
    simp only [stats_dupli_object_group_doit, groupCalls,
      members_eq_calls g s psys tg cur,
      doit_children_eq_calls ch _ psys tg _, List.foldl_append]

theorem doit_children_eq_calls : ∀ (cs : CollectionList) (s : SceneStats)
    (psys : ParticleSystem) (tg cur : Nat),
    group_doit_children cs s psys tg cur =
      ((groupCallsChildren cs psys tg cur).1.foldl
          (fun s2 p => (stats_object p.1 false (p.2 : Int) s2).1) s,
        (groupCallsChildren cs psys tg cur).2)
  | .nil, s, psys, tg, cur => by
    simp [group_doit_children, groupCallsChildren]
  | .cons c rest, s, psys, tg, cur => by
    simp only [group_doit_children, groupCallsChildren,
      doit_eq_calls c s psys tg cur,
      doit_children_eq_calls rest _ psys tg _, List.foldl_append]

end

theorem count_particles_mod_sum (psys : ParticleSystem) (N : Nat) :
    (∑ i in Finset.range N, count_particles_mod psys N i) =
      if N = 0 then 0 else psys.tot_particles := by
  rcases Nat.eq_zero_or_pos N with h | h
  · subst h; simp
  · have hne : N ≠ 0 := Nat.pos_iff_ne_zero.mp h
    simp only [hne, if_false]
    unfold count_particles_mod
    rw [Finset.sum_add_distrib, Finset.sum_const, Finset.card_range,
      smul_eq_mul]
    have hmin : ∀ M : Nat, (∑ i in Finset.range M,
        if i < psys.tot_particles % N then (1 : Nat) else 0) =
        min M (psys.tot_particles % N) := by
      intro M
      induction M with
      | zero => simp
      | succ m ihm =>
        rw [Finset.sum_range_succ, ihm]
        split_ifs <;> omega
    rw [hmin N]
    have hr : psys.tot_particles % N < N := Nat.mod_lt _ h
    rw [Nat.min_eq_right (le_of_lt hr), Nat.div_add_mod]

/-- C3: the count pass totals exactly the depth-first enumeration
(members before child collections) of the target collection; the
distribution pass invokes the Per-Object Counter once per enumerated
member, selection off, with the round-robin share for its enumeration
index as multiplier; the shares of `totgroup` members always sum to the
system's total instance count; and 10 live particles over the 3-member
collection `c3Coll` give multipliers `[4, 3, 3]`, summing to 10. -/
theorem c3_collection_round_robin :
    (∀ c : Collection,
      stats_dupli_object_group_count c = (collectionFlatten c).length) ∧
    (∀ (c : Collection) (s : SceneStats) (psys : ParticleSystem)
        (tg cur : Nat),
      stats_dupli_object_group_doit c s psys tg cur =
        ((groupCalls c psys tg cur).1.foldl
            (fun s2 p => (stats_object p.1 false (p.2 : Int) s2).1) s,
          (groupCalls c psys tg cur).2)) ∧
    (∀ (c : Collection) (psys : ParticleSystem) (tg cur : Nat),
      (groupCalls c psys tg cur).1 =
        ((collectionFlatten c).enumFrom cur).map
          (fun p => (p.2, count_particles_mod psys tg p.1))) ∧
    (∀ (psys : ParticleSystem) (N : Nat),
      (∑ i in Finset.range N, count_particles_mod psys N i) =
        if N = 0 then 0 else psys.tot_particles) ∧
    (groupCalls c3Coll c3Psys
        (stats_dupli_object_group_count c3Coll) 0).1.map Prod.snd
      = [4, 3, 3] ∧
    ([4, 3, 3] : List Nat).sum = 10 := by
  refine ⟨group_count_flatten, doit_eq_calls, ?_, count_particles_mod_sum,
    by decide, by decide⟩
  intro c psys tg cur
  rw [groupCalls_spec]

theorem foldl_preserves {α : Type} (step : SceneStats → α → SceneStats)
    (P : SceneStats → Prop) :
    ∀ l : List α, (∀ a ∈ l, ∀ s, P s → P (step s a)) →
      ∀ s, P s → P (l.foldl step s) := by
  intro l
  induction l with
  | nil => intro _ s h; exact h
  | cons a rest ih =>
    intro hstep s h
    exact ih (fun b hb => hstep b (List.mem_cons_of_mem a hb)) _
      (hstep a (List.mem_cons_self a rest) s h)

theorem Qrel_bones_edge {s r : SceneStats} (h : Qrel s r) :
    r.totbone = s.totbone ∧ r.totbonesel = s.totbonesel ∧
      r.totedgesel = s.totedgesel := by
  obtain ⟨hsel, hb, _, _, _⟩ := h
  simp only [selCounters, Prod.mk.injEq] at hsel
  exact ⟨hb, hsel.2.2.2.1, hsel.2.1⟩

theorem dupli_bones_const (ob : Object) (s : SceneStats) :
    (stats_dupli_object ob s).1.totbone = s.totbone ∧
      (stats_dupli_object ob s).1.totbonesel = s.totbonesel ∧
      (stats_dupli_object ob s).1.totedgesel = s.totedgesel := by
  have hpre :
      (if ob.base_selected then { s with totobjsel := s.totobjsel + 1 }
          else s).totbone = s.totbone ∧
        (if ob.base_selected then { s with totobjsel := s.totobjsel + 1 }
          else s).totbonesel = s.totbonesel ∧
        (if ob.base_selected then { s with totobjsel := s.totobjsel + 1 }
          else s).totedgesel = s.totedgesel := by
    split <;> simp
  set s1 := if ob.base_selected then { s with totobjsel := s.totobjsel + 1 }
    else s with hs1
  obtain ⟨p1, p2, p3⟩ := hpre
  by_cases h1 : ob.transflag.dupliparts = true
  · simp only [stats_dupli_object, ← hs1, h1, if_true]
    obtain ⟨q1, q2, q3⟩ :=
      Qrel_bones_edge (psys_fold_Qrel ob.particlesystem s1)
    obtain ⟨a1, a2, a3, _, _⟩ := so_const ob.data ob.base_selected 1
      (ob.particlesystem.foldl psysContribution s1)
    exact ⟨by rw [a1, q1, p1], by rw [a2, q2, p2], by rw [a3, q3, p3]⟩
  · have h1f : ob.transflag.dupliparts = false := by
      revert h1; cases ob.transflag.dupliparts <;> simp
    by_cases h2 : (match ob.parent with
        | some p => p.dupliverts || p.duplifaces
        | none => false) = true
    · simp only [stats_dupli_object, ← hs1, h1f, Bool.false_eq_true, if_false,
        h2, if_true]
      obtain ⟨a1, a2, a3, _, _⟩ := so_const ob.data ob.base_selected
        (if ob.data.type = .OB_MBALL then 1
          else
            match ob.parent with
            | some p => (p.duplilist_count : Int)
            | none => 0)
        { s1 with totobj := s1.totobj +
            (if ob.data.type = .OB_MBALL then 1
              else
                match ob.parent with
                | some p => (p.duplilist_count : Int)
                | none => 0) }
      exact ⟨by rw [a1]; exact p1, by rw [a2]; exact p2, by rw [a3]; exact p3⟩
    · have h2f : (match ob.parent with
          | some p => p.dupliverts || p.duplifaces
          | none => false) = false := by
        revert h2
        cases (match ob.parent with
          | some p => p.dupliverts || p.duplifaces
          | none => false) <;> simp
      by_cases h3 : ob.transflag.dupliframes = true
      · simp only [stats_dupli_object, ← hs1, h1f, Bool.false_eq_true,
          if_false, h2f, h3, if_true]
        obtain ⟨a1, a2, a3, _, _⟩ := so_const ob.data ob.base_selected
          (ob.duplilist_count : Int)
          { s1 with totobj := s1.totobj + (ob.duplilist_count : Int) }
        exact ⟨by rw [a1]; exact p1, by rw [a2]; exact p2,
          by rw [a3]; exact p3⟩
      · have h3f : ob.transflag.dupliframes = false := by
          revert h3; cases ob.transflag.dupliframes <;> simp
        by_cases h4 : (ob.transflag.duplicollection && ob.dup_group.isSome)
            = true
        · simp only [stats_dupli_object, ← hs1, h1f, Bool.false_eq_true,
            if_false, h2f, h3f, h4, if_true]
          obtain ⟨a1, a2, a3, _, _⟩ := so_const ob.data ob.base_selected
            (ob.duplilist_count : Int)
            { s1 with totobj := s1.totobj + (ob.duplilist_count : Int) }
          exact ⟨by rw [a1]; exact p1, by rw [a2]; exact p2,
            by rw [a3]; exact p3⟩
        · have h4f : (ob.transflag.duplicollection && ob.dup_group.isSome)
              = false := by
            revert h4
            cases (ob.transflag.duplicollection && ob.dup_group.isSome) <;>
              simp
          simp only [stats_dupli_object, ← hs1, h1f, Bool.false_eq_true,
            if_false, h2f, h3f, h4f]
          obtain ⟨a1, a2, a3, _, _⟩ := so_const ob.data ob.base_selected 1 s1
          exact ⟨by rw [a1]; exact p1, by rw [a2]; exact p2,
            by rw [a3]; exact p3⟩

theorem armStep_edit_zeros (s : SceneStats) (a : EditBone)
    (h : exclusiveZeros .Edit s) : exclusiveZeros .Edit (armStep s a) := by
  simp only [exclusiveZeros] at h ⊢
  unfold armStep
  split_ifs <;> simp_all

theorem beztStep_edit_zeros (s : SceneStats) (a : BezTriple)
    (h : exclusiveZeros .Edit s) : exclusiveZeros .Edit (beztStep s a) := by
  simp only [exclusiveZeros] at h ⊢
  unfold beztStep
  split_ifs <;> simp_all

theorem bpStep_edit_zeros (s : SceneStats) (a : BPoint)
    (h : exclusiveZeros .Edit s) : exclusiveZeros .Edit (bpStep s a) := by
  simp only [exclusiveZeros] at h ⊢
  unfold bpStep
  split_ifs <;> simp_all

theorem mlStep_edit_zeros (s : SceneStats) (a : MetaElem)
    (h : exclusiveZeros .Edit s) : exclusiveZeros .Edit (mlStep s a) := by
  simp only [exclusiveZeros] at h ⊢
  unfold mlStep
  split_ifs <;> simp_all

theorem nurbStep_edit_zeros (s : SceneStats) (a : Nurb)
    (h : exclusiveZeros .Edit s) : exclusiveZeros .Edit (nurbStep s a) := by
  rcases a with bezt | bp
  · exact foldl_preserves beztStep _ bezt
      (fun b _ s2 h2 => beztStep_edit_zeros s2 b h2) s h
  · exact foldl_preserves bpStep _ bp
      (fun b _ s2 h2 => bpStep_edit_zeros s2 b h2) s h

theorem edit_object_zeros (o : Object) (s : SceneStats)
    (h : exclusiveZeros .Edit s) :
    exclusiveZeros .Edit (stats_object_edit o s) := by
  unfold stats_object_edit
  split_ifs
  · rcases hem : o.editmesh with _ | em
    · simpa [hem] using h
    · simp only [hem, exclusiveZeros] at h ⊢
      simp_all
  · exact foldl_preserves armStep _ o.edbo
      (fun b _ s2 h2 => armStep_edit_zeros s2 b h2) s h
  · exact foldl_preserves nurbStep _ o.editnurbs
      (fun b _ s2 h2 => nurbStep_edit_zeros s2 b h2) s h
  · exact foldl_preserves mlStep _ o.editelems
      (fun b _ s2 h2 => mlStep_edit_zeros s2 b h2) s h
  · exact foldl_preserves bpStep _ o.editlatt
      (fun b _ s2 h2 => bpStep_edit_zeros s2 b h2) s h
  · exact h

theorem editWalker_zeros (ctx : ViewLayerCtx) :
    exclusiveZeros .Edit (editWalker ctx) := by
  unfold editWalker
  exact foldl_preserves (fun s o => stats_object_edit o s) _ ctx.editSession
    (fun o _ s2 h2 => edit_object_zeros o s2 h2) emptyStats
    (by simp [exclusiveZeros, emptyStats])

theorem poseStep_zeros (al : Nat) (s : SceneStats) (a : PoseChannel)
    (h : exclusiveZeros .Pose s) : exclusiveZeros .Pose (poseStep al s a) := by
  simp only [exclusiveZeros] at h ⊢
  unfold poseStep
  rcases a with ⟨_ | b⟩
  · simp_all
  · simp only []
    split_ifs <;> simp_all

theorem poseWalker_zeros (ctx : ViewLayerCtx) :
    exclusiveZeros .Pose (poseWalker ctx) := by
  unfold poseWalker
  rcases hA : ctx.active with _ | o <;> dsimp only
  · simp [exclusiveZeros, emptyStats]
  · unfold stats_object_pose
    rcases hP : o.pose with _ | pose <;> dsimp only
    · simp [exclusiveZeros, emptyStats]
    · exact foldl_preserves (poseStep o.arm_layer) _ pose.chanbase
        (fun b _ s2 h2 => poseStep_zeros o.arm_layer s2 b h2) emptyStats
        (by simp [exclusiveZeros, emptyStats])

theorem sculptWalker_zeros (ctx : ViewLayerCtx) :
    exclusiveZeros .SculptDynamicTopology (sculptWalker ctx) := by
  unfold sculptWalker
  rcases hA : ctx.active with _ | o <;> dsimp only
  · simp [exclusiveZeros, emptyStats]
  · rcases hB : o.sculpt_bm with _ | bm <;>
      simp [hB, stats_object_sculpt_dynamic_topology, exclusiveZeros,
        emptyStats]

theorem objectsWalk_bones_const : ∀ (l : List Object) (s : SceneStats),
    (objectsWalk l s).1.totbone = s.totbone ∧
      (objectsWalk l s).1.totbonesel = s.totbonesel ∧
      (objectsWalk l s).1.totedgesel = s.totedgesel
  | [], s => ⟨rfl, rfl, rfl⟩
  | ob :: rest, s => by
    obtain ⟨a1, a2, a3⟩ := dupli_bones_const ob s
    obtain ⟨b1, b2, b3⟩ := objectsWalk_bones_const rest (stats_dupli_object ob s).1
    exact ⟨by rw [objectsWalk] at *; rw [b1, a1],
      by rw [objectsWalk] at *; rw [b2, a2],
      by rw [objectsWalk] at *; rw [b3, a3]⟩

theorem objectWalker_zeros (ctx : ViewLayerCtx) :
    exclusiveZeros .Objects (objectWalker ctx).1 := by
  unfold objectWalker
  simp only [exclusiveZeros]
  obtain ⟨a1, a2, a3⟩ := objectsWalk_bones_const ctx.objects emptyStats
  exact ⟨by rw [a1]; rfl, by rw [a2]; rfl, by rw [a3]; rfl⟩

theorem classify_eq_spec (ctx : ViewLayerCtx) :
    classify ctx = classifySpec ctx.active (OBEDIT_FROM_VIEW_LAYER ctx) := by
  unfold classify classifySpec OBEDIT_FROM_VIEW_LAYER OBEDIT_FROM_OBACT
  rcases hA : ctx.active with _ | o
  · rfl
  · dsimp only
    by_cases he : o.mode.edit
    · simp [he]
    · simp only [he, Bool.false_eq_true, if_false, Option.isSome_none]
      by_cases hp : o.mode.pose
      · simp [hp]
      · simp only [hp, Bool.false_eq_true, if_false]
        by_cases hs : o.mode.sculpt <;>
          rcases hbm : o.sculpt_bm with _ | bm <;>
          simp [stats_is_object_dynamic_topology_sculpt, hs, hbm]

/-- C6: the recomputation dispatch follows the classifier exactly (Edit,
else Pose, else dynamic-topology Sculpt, else Object), the classifier
agrees with the specification's priority rules, and the counters that the
selected walker never touches are all zero after the recomputation. -/
theorem c6_mode_classification_exclusive (ctx : ViewLayerCtx) :
    ((stats_update ctx).1 =
      match classify ctx with
      | .Edit => editWalker ctx
      | .Pose => poseWalker ctx
      | .SculptDynamicTopology => sculptWalker ctx
      | .Objects => (objectWalker ctx).1) ∧
    exclusiveZeros (classify ctx) (stats_update ctx).1 ∧
    classify ctx = classifySpec ctx.active (OBEDIT_FROM_VIEW_LAYER ctx) := by
  have hdisp : (stats_update ctx).1 =
      match classify ctx with
      | .Edit => editWalker ctx
      | .Pose => poseWalker ctx
      | .SculptDynamicTopology => sculptWalker ctx
      | .Objects => (objectWalker ctx).1 := by
    unfold stats_update classify
    by_cases he : (OBEDIT_FROM_VIEW_LAYER ctx).isSome
    · simp [he]
    · simp only [he, Bool.false_eq_true, if_false]
      rcases hA : ctx.active with _ | o <;> dsimp only
      by_cases hp : o.mode.pose
      · simp [hp]
      · simp only [hp, Bool.false_eq_true, if_false]
        by_cases hs : stats_is_object_dynamic_topology_sculpt (some o) o.mode
          <;> simp [hs]
  refine ⟨hdisp, ?_, classify_eq_spec ctx⟩
  rw [hdisp]
  rcases hm : classify ctx with _ | _ | _ | _ <;> dsimp only
  · exact editWalker_zeros ctx
  · exact poseWalker_zeros ctx
  · exact sculptWalker_zeros ctx
  · exact objectWalker_zeros ctx

theorem statsStringBody_irrel (env : StatsEnv) (ctx : ViewLayerCtx)
    (st : SceneStats) (x : String) :
    statsStringBody env ctx { st with infostr := x } =
      statsStringBody env ctx st := rfl

/-- C7: calling `getDisplayString` twice on the same viewing context with
no invalidate and no scene mutation in between returns byte-identical
output, and the second call performs no recomputation of the
accumulator. -/
theorem c7_get_display_string_idempotent (env : StatsEnv)
    (ctx : ViewLayerCtx) (cache : Option SceneStats) :
    ((ED_info_stats_string env
        (ED_info_stats_string env ctx cache).2.1
        (ED_info_stats_string env ctx cache).2.2.1).1 =
      (ED_info_stats_string env ctx cache).1) ∧
    (ED_info_stats_string env
        (ED_info_stats_string env ctx cache).2.1
        (ED_info_stats_string env ctx cache).2.2.1).2.2.2 = false := by
  rcases cache with _ | st0 <;> exact ⟨rfl, rfl⟩

theorem psys_absent_noop (psys : ParticleSystem) (h : psysTargetAbsent psys)
    (s : SceneStats) : psysContribution s psys = s := by
  obtain ⟨h1, h2⟩ := h
  have h2e : psys.dup_group = none := Option.isNone_iff_eq_none.mp h2
  rcases psys with ⟨tp, da, dob, dgr⟩
  simp only at h1 h2e
  subst h1
  subst h2e
  cases da <;> rfl

theorem psys_fold_absent (l : List ParticleSystem)
    (h : ∀ psys ∈ l, psysTargetAbsent psys) (s : SceneStats) :
    l.foldl psysContribution s = s := by
  induction l generalizing s with
  | nil => rfl
  | cons p rest ih =>
    rw [List.foldl_cons,
      psys_absent_noop p (h p (List.mem_cons_self p rest)) s]
    exact ih (fun q hq => h q (List.mem_cons_of_mem p hq)) s

/-- C9: degraded inputs contribute zero and never fail — an absent
evaluated mesh adds nothing, absent pose data adds nothing, a
particle-duplicating object all of whose systems lack a target counts
exactly as if it had no systems, an empty collection has count 0 and an
empty distribution pass, and the display-string call always returns a
string ending in the version tag. -/
theorem c9_degraded_inputs_zero :
    (∀ (sel : Bool) (totob : Int) (st : SceneStats),
      stats_mesheval none sel totob st = (false, st)) ∧
    (∀ (ob : Object) (st : SceneStats), ob.pose = none →
      stats_object_pose ob st = st) ∧
    (∀ (ob : Object) (st : SceneStats), ob.transflag.dupliparts = true →
      (∀ psys ∈ ob.particlesystem, psysTargetAbsent psys) →
      (stats_dupli_object ob st).1 =
        (stats_dupli_object { ob with particlesystem := [] } st).1) ∧
    (∀ (st : SceneStats) (psys : ParticleSystem) (tg cur : Nat),
      stats_dupli_object_group_doit (.mk [] .nil) st psys tg cur
          = (st, cur) ∧
        stats_dupli_object_group_count (.mk [] .nil) = 0) ∧
    (∀ (env : StatsEnv) (ctx : ViewLayerCtx) (cache : Option SceneStats),
      ∃ body : String,
        (ED_info_stats_string env ctx cache).1 =
          body ++ " | " ++ env.versionstr) := by
  refine ⟨fun _ _ _ => rfl, ?_, ?_, fun _ _ _ _ => ⟨rfl, rfl⟩, ?_⟩
  · intro ob st h
    unfold stats_object_pose
    rw [h]
  · intro ob st h habs
    simp only [stats_dupli_object, h, if_true, List.foldl_nil]
    rw [psys_fold_absent ob.particlesystem habs]
  · intro env ctx cache
    rcases cache with _ | st0
    · exact ⟨statsStringBody env (stats_update ctx).2 (stats_update ctx).1, rfl⟩
    · exact ⟨statsStringBody env ctx st0, rfl⟩

/-- C9 witness: the degraded facts instantiated — no evaluated mesh at
selection on and multiplier 5; the poseless armature; the
particle-duplicating object with two targetless systems; the empty
collection; and a concrete display-string call. -/
theorem c9_degraded_inputs_zero_witness :
    stats_mesheval none true 5 emptyStats = (false, emptyStats) ∧
    stats_object_pose c9PoselessObject emptyStats = emptyStats ∧
    (stats_dupli_object c9PartsObject emptyStats).1 =
      (stats_dupli_object { c9PartsObject with particlesystem := [] }
        emptyStats).1 ∧
    stats_dupli_object_group_doit (.mk [] .nil) emptyStats c3Psys 0 0
      = (emptyStats, 0) ∧
    (∃ body : String, (ED_info_stats_string {} c8Ctx none).1 =
      body ++ " | " ++ ({} : StatsEnv).versionstr) :=
  ⟨c9_degraded_inputs_zero.1 true 5 emptyStats,
    c9_degraded_inputs_zero.2.1 c9PoselessObject emptyStats rfl,
    c9_degraded_inputs_zero.2.2.1 c9PartsObject emptyStats rfl (by decide),
    (c9_degraded_inputs_zero.2.2.2.1 emptyStats c3Psys 0 0).1,
    c9_degraded_inputs_zero.2.2.2.2 {} c8Ctx none⟩

theorem so_data_erase (d : ObData) (sel : Bool) (t : Int) (s : SceneStats) :
    eraseGPCacheData (stats_object d sel t s).2 = eraseGPCacheData d := by
  rcases d with ⟨ty, me, cc, g⟩
  cases ty <;> cases sel <;>
    simp only [stats_object] <;>
    first
      | rfl
      | (split <;> rfl)

theorem dupli_erase (ob : Object) (s : SceneStats) :
    eraseGPCache (stats_dupli_object ob s).2 = eraseGPCache ob := by
  unfold stats_dupli_object
  split_ifs <;> simp [eraseGPCache, so_data_erase]

theorem objectsWalk_erase : ∀ (l : List Object) (s : SceneStats),
    (objectsWalk l s).2.map eraseGPCache = l.map eraseGPCache
  | [], _ => rfl
  | ob :: rest, s => by
    simp only [objectsWalk, List.map_cons]
    rw [dupli_erase, objectsWalk_erase rest]

/-- C8 counterexample: recomputing over `c8Ctx` (one selected
grease-pencil object with stale cached totals) changes the scene — the
object's cached layer total is rewritten in place, so the view layer
after `stats_update` differs from the one before. -/
theorem c8_counterexample_scene_mutated : (stats_update c8Ctx).2 ≠ c8Ctx := by
  intro h
  have h2 := congrArg
    (fun c => c.objects.map (fun o => o.data.gpd.totlayer)) h
  exact absurd h2 (by decide)

/-- C8 amended: a recomputation leaves the viewing context unchanged
except that the cached layer/frame/stroke/point totals of (selected)
grease-pencil objects may be refreshed in place — after erasing those
cached fields, the object list is unchanged, and the active object, edit
session and collection name are untouched. -/
theorem c8_read_only_up_to_gp_cache (ctx : ViewLayerCtx) :
    (stats_update ctx).2.objects.map eraseGPCache =
        ctx.objects.map eraseGPCache ∧
      (stats_update ctx).2.active = ctx.active ∧
      (stats_update ctx).2.editSession = ctx.editSession ∧
      (stats_update ctx).2.collectionName = ctx.collectionName := by
  unfold stats_update
  by_cases he : (OBEDIT_FROM_VIEW_LAYER ctx).isSome
  · simp [he]
  · simp only [he, Bool.false_eq_true, if_false]
    rcases hA : ctx.active with _ | o <;> dsimp only
    · unfold objectWalker
      exact ⟨objectsWalk_erase ctx.objects emptyStats, hA, rfl, rfl⟩
    · by_cases hp : o.mode.pose
      · simp [hp, hA]
      · simp only [hp, Bool.false_eq_true, if_false]
        by_cases hs : stats_is_object_dynamic_topology_sculpt (some o) o.mode
        · simp [hs, hA]
        · simp only [hs, Bool.false_eq_true, if_false]
          unfold objectWalker
          exact ⟨objectsWalk_erase ctx.objects emptyStats, hA, rfl, rfl⟩

theorem dupli_branch_mult (d : ObData) (sel : Bool) (t : Int)
    (s1 : SceneStats) (ht : 1 ≤ t)
    (hv : s1.totvertsel ≤ s1.totvert) (hf : s1.totfacesel ≤ s1.totface)
    (hb : s1.totbonesel ≤ s1.totbone)
    (ho : s1.totobjsel ≤ s1.totobj + t) :
    selLeTot (stats_object d sel t { s1 with totobj := s1.totobj + t }).1 := by
  obtain ⟨pv, pf⟩ := so_pres_vf d sel t { s1 with totobj := s1.totobj + t }
    ht hv hf
  obtain ⟨c1, c2, c3, c4, c5⟩ :=
    so_const d sel t { s1 with totobj := s1.totobj + t }
  unfold selLeTot
  refine ⟨pv, pf, ?_, ?_⟩ <;> simp only [c1, c2, c4, c5] <;> omega

theorem dupli_branch_one (d : ObData) (sel : Bool) (s1 : SceneStats)
    (hv : s1.totvertsel ≤ s1.totvert) (hf : s1.totfacesel ≤ s1.totface)
    (hb : s1.totbonesel ≤ s1.totbone)
    (ho : s1.totobjsel ≤ s1.totobj + 1) :
    selLeTot { (stats_object d sel 1 s1).1 with
      totobj := (stats_object d sel 1 s1).1.totobj + 1 } := by
  obtain ⟨pv, pf⟩ := so_pres_vf d sel 1 s1 (by norm_num) hv hf
  obtain ⟨c1, c2, c3, c4, c5⟩ := so_const d sel 1 s1
  unfold selLeTot
  refine ⟨pv, pf, ?_, ?_⟩ <;> simp only [c1, c2, c4, c5] <;> omega

theorem dupli_selLeTot (ob : Object) (s : SceneStats)
    (hdup : dupCountsPos ob) (h : selLeTot s) :
    selLeTot (stats_dupli_object ob s).1 := by
  obtain ⟨h1, h2, h3, h4⟩ := h
  set s1 := if ob.base_selected then { s with totobjsel := s.totobjsel + 1 }
    else s with hs1
  have e1 : s1.totvert = s.totvert ∧ s1.totvertsel = s.totvertsel ∧
      s1.totface = s.totface ∧ s1.totfacesel = s.totfacesel ∧
      s1.totbone = s.totbone ∧ s1.totbonesel = s.totbonesel ∧
      s1.totobj = s.totobj ∧ s1.totobjsel ≤ s.totobjsel + 1 := by
    rw [hs1]
    split <;> refine ⟨rfl, rfl, rfl, rfl, rfl, rfl, rfl, ?_⟩
    · simp
    · omega
  obtain ⟨e1v, e1vs, e1f, e1fs, e1b, e1bs, e1o, e1os⟩ := e1
  by_cases hp : ob.transflag.dupliparts = true
  · simp only [stats_dupli_object, ← hs1, hp, if_true]
    obtain ⟨q0, q1, q2, q3, q4⟩ := psys_fold_Qrel ob.particlesystem s1
    simp only [selCounters, Prod.mk.injEq] at q0
    obtain ⟨qv, qe, qf, qb, qo, ql⟩ := q0
    obtain ⟨pv, pf⟩ := so_pres_vf ob.data ob.base_selected 1
      (ob.particlesystem.foldl psysContribution s1) (by norm_num)
      (by omega) (by omega)
    obtain ⟨c1, c2, c3, c4, c5⟩ := so_const ob.data ob.base_selected 1
      (ob.particlesystem.foldl psysContribution s1)
    unfold selLeTot
    refine ⟨pv, pf, ?_, ?_⟩ <;>
      simp only [c1, c2, c4, c5] <;> omega
  · have hpf : ob.transflag.dupliparts = false := by
      revert hp; cases ob.transflag.dupliparts <;> simp
    by_cases hm : (match ob.parent with
        | some p => p.dupliverts || p.duplifaces
        | none => false) = true
    · rcases hpar : ob.parent with _ | par
      · rw [hpar] at hm; simp at hm
      · simp only [stats_dupli_object, ← hs1, hpf, Bool.false_eq_true,
          if_false, hm, if_true]
        have htot : (1 : Int) ≤ if ob.data.type = .OB_MBALL then 1
            else match ob.parent with
              | some p => (p.duplilist_count : Int)
              | none => 0 := by
          obtain ⟨_, hd2⟩ := hdup
          rw [hpar] at hd2
          dsimp only at hd2
          split
          · norm_num
          · rw [hpar]
            dsimp only
            exact_mod_cast hd2
        exact dupli_branch_mult ob.data ob.base_selected _ s1 htot
          (by omega) (by omega) (by omega) (by omega)
    · have hmf : (match ob.parent with
          | some p => p.dupliverts || p.duplifaces
          | none => false) = false := by
        revert hm
        cases (match ob.parent with
          | some p => p.dupliverts || p.duplifaces
          | none => false) <;> simp
      have hdl : (1 : Int) ≤ (ob.duplilist_count : Int) := by
        exact_mod_cast hdup.1
      by_cases hfr : ob.transflag.dupliframes = true
      · simp only [stats_dupli_object, ← hs1, hpf, Bool.false_eq_true,
          if_false, hmf, hfr, if_true]
        exact dupli_branch_mult ob.data ob.base_selected _ s1 hdl
          (by omega) (by omega) (by omega) (by omega)
      · have hfrf : ob.transflag.dupliframes = false := by
          revert hfr; cases ob.transflag.dupliframes <;> simp
        by_cases hcol : (ob.transflag.duplicollection && ob.dup_group.isSome)
            = true
        · simp only [stats_dupli_object, ← hs1, hpf, Bool.false_eq_true,
            if_false, hmf, hfrf, hcol, if_true]
          exact dupli_branch_mult ob.data ob.base_selected _ s1 hdl
            (by omega) (by omega) (by omega) (by omega)
        · have hcolf : (ob.transflag.duplicollection && ob.dup_group.isSome)
              = false := by
            revert hcol
            cases (ob.transflag.duplicollection && ob.dup_group.isSome) <;>
              simp
          simp only [stats_dupli_object, ← hs1, hpf, Bool.false_eq_true,
            if_false, hmf, hfrf, hcolf]
          exact dupli_branch_one ob.data ob.base_selected s1
            (by omega) (by omega) (by omega) (by omega)

theorem armStep_selLeTot (ebo : EditBone) (s : SceneStats)
    (hsync : boneSyncOk ebo) (h : selLeTot s) : selLeTot (armStep s ebo) := by
  obtain ⟨h1, h2, h3, h4⟩ := h
  rcases ebo with ⟨c, tsel, rsel, bsel, p⟩
  rcases p with _ | ⟨⟨pt⟩⟩
  · cases c <;> cases tsel <;> cases rsel <;> cases bsel <;>
      simp [armStep, selLeTot] <;> omega
  · cases c
    · cases tsel <;> cases rsel <;> cases bsel <;> cases pt <;>
        simp [armStep, selLeTot] <;> omega
    · have hr : rsel = pt := hsync rfl
      subst hr
      cases tsel <;> cases rsel <;> cases bsel <;>
        simp [armStep, selLeTot] <;> omega

theorem beztStep_selLeTot (s : SceneStats) (a : BezTriple)
    (h : selLeTot s) : selLeTot (beztStep s a) := by
  obtain ⟨h1, h2, h3, h4⟩ := h
  rcases a with ⟨f1, f2, f3⟩
  cases f1 <;> cases f2 <;> cases f3 <;>
    simp [beztStep, selLeTot] <;> omega

theorem bpStep_selLeTot (s : SceneStats) (a : BPoint)
    (h : selLeTot s) : selLeTot (bpStep s a) := by
  obtain ⟨h1, h2, h3, h4⟩ := h
  rcases a with ⟨f1⟩
  cases f1 <;> simp [bpStep, selLeTot] <;> omega

theorem mlStep_selLeTot (s : SceneStats) (a : MetaElem)
    (h : selLeTot s) : selLeTot (mlStep s a) := by
  obtain ⟨h1, h2, h3, h4⟩ := h
  rcases a with ⟨f1⟩
  cases f1 <;> simp [mlStep, selLeTot] <;> omega

theorem nurbStep_selLeTot (s : SceneStats) (a : Nurb)
    (h : selLeTot s) : selLeTot (nurbStep s a) := by
  rcases a with bezt | bp
  · exact foldl_preserves beztStep _ bezt
      (fun b _ s2 h2 => beztStep_selLeTot s2 b h2) s h
  · exact foldl_preserves bpStep _ bp
      (fun b _ s2 h2 => bpStep_selLeTot s2 b h2) s h

theorem poseStep_selLeTot (al : Nat) (s : SceneStats) (a : PoseChannel)
    (h : selLeTot s) : selLeTot (poseStep al s a) := by
  obtain ⟨h1, h2, h3, h4⟩ := h
  rcases a with ⟨_ | b⟩
  · simp [poseStep, selLeTot]; omega
  · simp only [poseStep]
    split_ifs <;> simp [selLeTot] <;> omega

theorem edit_selLeTot (o : Object) (hm : editMeshOk o) (ha : armSyncOk o)
    (s : SceneStats) (h : selLeTot s) :
    selLeTot (stats_object_edit o s) := by
  obtain ⟨h1, h2, h3, h4⟩ := h
  unfold stats_object_edit
  split_ifs
  · rcases hem : o.editmesh with _ | em <;> dsimp only
    · exact ⟨h1, h2, h3, h4⟩
    · unfold editMeshOk at hm
      rw [hem] at hm
      obtain ⟨m1, m2, m3⟩ := hm
      refine ⟨?_, ?_, h3, h4⟩ <;> simp <;> omega
  · exact foldl_preserves armStep _ o.edbo
      (fun b hb s2 h2 => armStep_selLeTot b s2 (ha b hb) h2) s
      ⟨h1, h2, h3, h4⟩
  · exact foldl_preserves nurbStep _ o.editnurbs
      (fun b _ s2 h2 => nurbStep_selLeTot s2 b h2) s ⟨h1, h2, h3, h4⟩
  · exact foldl_preserves mlStep _ o.editelems
      (fun b _ s2 h2 => mlStep_selLeTot s2 b h2) s ⟨h1, h2, h3, h4⟩
  · exact foldl_preserves bpStep _ o.editlatt
      (fun b _ s2 h2 => bpStep_selLeTot s2 b h2) s ⟨h1, h2, h3, h4⟩
  · exact ⟨h1, h2, h3, h4⟩

theorem objectsWalk_selLeTot : ∀ (l : List Object) (s : SceneStats),
    (∀ ob ∈ l, dupCountsPos ob) → selLeTot s →
    selLeTot (objectsWalk l s).1
  | [], _, _, h => h
  | ob :: rest, s, hd, h => by
    simp only [objectsWalk]
    exact objectsWalk_selLeTot rest _
      (fun q hq => hd q (List.mem_cons_of_mem ob hq))
      (dupli_selLeTot ob s (hd ob (List.mem_cons_self ob rest)) h)

theorem poseWalker_selLeTot (ctx : ViewLayerCtx) :
    selLeTot (poseWalker ctx) := by
  unfold poseWalker
  rcases hA : ctx.active with _ | o <;> dsimp only
  · decide
  · unfold stats_object_pose
    rcases hP : o.pose with _ | pose <;> dsimp only
    · decide
    · exact foldl_preserves (poseStep o.arm_layer) _ pose.chanbase
        (fun b _ s2 h2 => poseStep_selLeTot o.arm_layer s2 b h2) emptyStats
        (by decide)

theorem sculptWalker_selLeTot (ctx : ViewLayerCtx) :
    selLeTot (sculptWalker ctx) := by
  unfold sculptWalker
  rcases hA : ctx.active with _ | o <;> dsimp only
  · decide
  · rcases hB : o.sculpt_bm with _ | bm <;> dsimp only
    · decide
    · simp [selLeTot, stats_object_sculpt_dynamic_topology, emptyStats]

/-- C2 counterexample: the claim as stated fails on the armature edit
scene `c2Ctx` — an unselected root bone with three connected, fully
point-selected children whose roots are selected while the parent's tip
is not; the recomputation yields `totvertsel = 6 > totvert = 5`. -/
theorem c2_counterexample_sel_exceeds_tot :
    ¬ selLeTot (stats_update c2Ctx).1 := by decide

/-- C2 amended: after any recomputation, each selected sub-counter is at
most its total — `selLeTot` — provided the scene satisfies `ctxOk`:
every external duplication-list instance count involved is at least 1,
each edit mesh's maintained selected counters do not exceed its totals,
and every connected edit bone with a parent has its root selected
exactly when the parent's tip is selected. -/
theorem c2_sel_le_tot_invariant (ctx : ViewLayerCtx) (hok : ctxOk ctx) :
    selLeTot (stats_update ctx).1 := by
  obtain ⟨hobj, hedit⟩ := hok
  unfold stats_update
  by_cases he : (OBEDIT_FROM_VIEW_LAYER ctx).isSome
  · simp only [he, if_true]
    unfold editWalker
    exact foldl_preserves (fun s o => stats_object_edit o s) _
      ctx.editSession
      (fun o ho s2 h2 =>
        edit_selLeTot o (hedit o ho).1 (hedit o ho).2 s2 h2)
      emptyStats (by decide)
  · simp only [he, Bool.false_eq_true, if_false]
    rcases hA : ctx.active with _ | o <;> dsimp only
    · unfold objectWalker
      exact objectsWalk_selLeTot ctx.objects emptyStats hobj (by decide)
    · by_cases hp : o.mode.pose
      · simp only [hp, if_true]
        exact poseWalker_selLeTot ctx
      · simp only [hp, Bool.false_eq_true, if_false]
        by_cases hs : stats_is_object_dynamic_topology_sculpt (some o) o.mode
        · simp only [hs, if_true]
          exact sculptWalker_selLeTot ctx
        · simp only [hs, Bool.false_eq_true, if_false]
          unfold objectWalker
          exact objectsWalk_selLeTot ctx.objects emptyStats hobj (by decide)

/-- C2 witness: the amended invariant instantiated at the concrete
object-mode scene `c2WitnessCtx` (one selected mesh object, instance
counts 1). -/
theorem c2_sel_le_tot_invariant_witness :
    selLeTot (stats_update c2WitnessCtx).1 :=
  c2_sel_le_tot_invariant c2WitnessCtx (by decide)
